import Mathlib

/-!
Verification of the witness-field core against its specification.

The definitions below are a shallow embedding of the witness store found in
the repository (the Gun.js-backed store module, the sync-test page variant and
the emergency store variant).  JavaScript numbers are embedded as follows:
every numeric value reachable in the modelled code paths is an integer that a
64-bit IEEE-754 double represents exactly, so timestamps, counts, coordinates
and seeds are modelled as Int.  The one place where double rounding is
observable, the proof-of-work avalanche loop (whose products exceed 2 to the
53), is modelled bit-exactly with an explicit round-to-nearest-even function
on integers (fl53).  Strings are modelled as Lean strings; charCodeAt is the
code of the character, which agrees with UTF-16 code units for the
basic-multilingual-plane texts considered here.
-/

set_option maxRecDepth 40000

namespace WitnessField

/-! ## Proof-of-work gate (witness store module, computeProofOfWork and
verifyProofOfWork)

JavaScript evaluates the avalanche line

  hash = (hash * 1103515245 + 12345) & 0xffffffff

on doubles: the product (up to about 2 to the 61) is rounded to 53 significant
bits, the sum is rounded again, and the bitwise-and truncates to a signed
32-bit integer.  fl53 is that rounding, exactly. -/

/-- Number of binary digits of a natural number, by fuel recursion (the fuel
is ample for every value that can appear here, and the function is total). -/
def bitLenAux : Nat → Nat → Nat
  | 0, _ => 0
  | fuel+1, n => if n = 0 then 0 else bitLenAux fuel (n / 2) + 1

/-- How many low bits must be rounded away to fit the value in a 53-bit
mantissa.  The comparison ladder covers all values below 2 to the 62 (the
range reachable in the avalanche loop); larger values fall back to the
general bit-length computation. -/
def excessBits (n : Nat) : Nat :=
  if n < 9007199254740992 then 0
  else if n < 18014398509481984 then 1
  else if n < 36028797018963968 then 2
  else if n < 72057594037927936 then 3
  else if n < 144115188075855872 then 4
  else if n < 288230376151711744 then 5
  else if n < 576460752303423488 then 6
  else if n < 1152921504606846976 then 7
  else if n < 2305843009213693952 then 8
  else if n < 4611686018427387904 then 9
  else bitLenAux 4096 n - 53

/-- Round a natural number to the nearest multiple of the mantissa
granularity, ties to even: IEEE-754 double rounding of an integer. -/
def fl53nat (n : Nat) : Nat :=
  let s := excessBits n
  if s = 0 then n
  else
    let g := 2 ^ s
    let q := n / g
    let r := n % g
    let half := g / 2
    if r < half then q * g
    else if half < r then (q + 1) * g
    else (if q % 2 = 0 then q else q + 1) * g

/-- IEEE-754 double rounding of an integer (round to nearest, ties to even;
symmetric in the sign). -/
def fl53 (x : Int) : Int :=
  if x < 0 then -(fl53nat x.natAbs : Nat) else (fl53nat x.natAbs : Nat)

/-- JavaScript ToInt32 bit pattern of an integer-valued double, kept as a
natural number below 2 to the 32. -/
def mask32 (x : Int) : Nat := (x % 4294967296).toNat

/-- The signed reading of a 32-bit pattern: the value a JavaScript bitwise
result denotes. -/
def signed32 (p : Nat) : Int :=
  if p < 2147483648 then (p : Int) else (p : Int) - 4294967296

/-- One step of the rolling hash, hash = ((hash << 5) - hash + c) & 0xffffffff.
The shift wraps to Int32 first; modulo 2 to the 32 the whole line is
31 * hash + c (all intermediate doubles are exact at these magnitudes). -/
def rollStep (p c : Nat) : Nat := (31 * p + c) % 4294967296

/-- The rolling hash over the char codes of the data string, starting at 0. -/
def rollHash (codes : List Nat) : Nat := codes.foldl rollStep 0

/-- One avalanche round, hash = (hash * 1103515245 + 12345) & 0xffffffff,
with both double roundings made explicit. -/
def avalancheStep (p : Nat) : Nat :=
  mask32 (fl53 (fl53 (signed32 p * 1103515245) + 12345))

/-- The full hash pipeline of computeProofOfWork and verifyProofOfWork:
rolling hash over the data, then 10000 avalanche rounds. -/
def powHash (codes : List Nat) : Nat := avalancheStep^[10000] (rollHash codes)

/-- charCodeAt sequence of a string. -/
def charCodes (s : String) : List Nat := s.data.map Char.toNat

/-- JavaScript Number.prototype.toString(16) on an Int32 value: lowercase hex
digits, with a leading minus sign for negative values. -/
def jsNumHex (v : Int) : String :=
  if v < 0 then "-" ++ String.mk (Nat.toDigits 16 v.natAbs)
  else String.mk (Nat.toDigits 16 v.toNat)

/-- The hash string the store computes for a given text and nonce:
hash.toString(16) of the signed 32-bit accumulator over text + nonce. -/
def powHashString (text : String) (nonce : Nat) : String :=
  jsNumHex (signed32 (powHash (charCodes (text ++ Nat.repr nonce))))

/-- A proof-of-work credential, proof = { nonce, hash }. -/
structure Proof where
  nonce : Nat
  hash : String
deriving DecidableEq, Repr

/-- The value computeProofOfWork resolves when its 1-second deadline is
reached at the iteration whose data string was text + stopNonce: the nonce
has already been incremented when the promise resolves, so the returned
nonce is stopNonce + 1 while the returned hash was computed for stopNonce. -/
def computeProofOfWork (text : String) (stopNonce : Nat) : Proof :=
  { nonce := stopNonce + 1, hash := powHashString text stopNonce }

/-- verifyProofOfWork: recompute the hash for text + proof.nonce and compare
the hex strings. -/
def verifyProofOfWork (text : String) (proof : Proof) : Bool :=
  powHashString text proof.nonce == proof.hash

/-! ## Witness data model (types.ts) -/

/-- Spatial position, normalized percent coordinates. -/
structure Position where
  x : Int
  y : Int
deriving DecidableEq, Repr

/-- Witness metadata (types.ts): entropy seed, optional context tag, optional
position, and the lastUpdate timestamp used for sync tracking. -/
structure Metadata where
  affect : Option String
  entropySeed : Int
  contextTag : Option String
  position : Option Position
  lastUpdate : Option Int
deriving DecidableEq, Repr

/-- The Witness entity (types.ts). -/
structure Witness where
  id : String
  text : String
  createdAt : Int
  expiresAt : Int
  witnessCount : Int
  lastWitnessed : Int
  contextOf : Option String
  proof : Option Proof
  metadata : Metadata
deriving DecidableEq, Repr

/-- DEV_MODE flag of the store module (set to false in the source). -/
def DEV_MODE : Bool := false

/-- calculateCurrentWitnessCount: deterministic display decay.  Lose one
witness count per full decay interval (2 minutes in production, 45 seconds in
dev mode) since lastWitnessed, floored at 1.  Math.floor of the quotient is
floor division (exact for the integer-millisecond inputs that occur). -/
def calculateCurrentWitnessCount (witness : Witness) (now : Int) : Int :=
  let timeSinceLastWitness := now - witness.lastWitnessed
  if DEV_MODE then
    let decaySteps := Int.fdiv timeSinceLastWitness (45 * 1000)
    max 1 (witness.witnessCount - decaySteps)
  else
    let decaySteps := Int.fdiv timeSinceLastWitness (2 * 60 * 1000)
    max 1 (witness.witnessCount - decaySteps)

/-- calculateExpiration: entropy-based expiration.  The 0.8 decay factor of
the stale branch is written as multiplication by 4/5; since baseLifetime +
entropyBonus is always a multiple of 5000 in range, the double multiplication
by the literal 0.8 rounds to exactly this value. -/
def calculateExpiration (witnessCount : Int) (lastWitnessed : Int) (now : Int) : Int :=
  if DEV_MODE then
    let baseLifetime : Int := 90 * 1000
    let entropyBonus : Int := min (witnessCount * 20 * 1000) (3 * 60 * 1000)
    let timeSinceLastWitness := now - lastWitnessed
    if timeSinceLastWitness > 30 * 1000 then
      lastWitnessed + (baseLifetime + entropyBonus) * 4 / 5
    else lastWitnessed + (baseLifetime + entropyBonus)
  else
    let baseLifetime : Int := 5 * 60 * 1000
    let entropyBonus : Int := min (witnessCount * 15 * 1000) (10 * 60 * 1000)
    let timeSinceLastWitness := now - lastWitnessed
    if timeSinceLastWitness > 5 * 60 * 1000 then
      lastWitnessed + (baseLifetime + entropyBonus) * 4 / 5
    else lastWitnessed + (baseLifetime + entropyBonus)

/-- getActiveWitnesses: the non-expired entries (expiresAt strictly greater
than now). -/
def getActiveWitnesses (now : Int) (witnessArray : List Witness) : List Witness :=
  witnessArray.filter (fun w => w.expiresAt > now)

/-! ## Incoming record shape and JavaScript truthiness helpers -/

/-- The Gun.js object-format record as received by loadWitnessData; every
field may be absent (undefined or null are both modelled as none). -/
structure GunData where
  id : Option String
  text : Option String
  createdAt : Option Int
  expiresAt : Option Int
  witnessCount : Option Int
  lastWitnessed : Option Int
  contextOf : Option String
  proofNonce : Option Nat
  proofHash : Option String
  entropySeed : Option Int
  contextTag : Option String
  positionX : Option Int
  positionY : Option Int
  lastUpdate : Option Int
deriving DecidableEq, Repr

/-- JavaScript truthiness of an optional number: present and nonzero. -/
def truthyNum : Option Int → Bool
  | some n => n != 0
  | none => false

/-- JavaScript truthiness of an optional nonce: present and nonzero. -/
def truthyNat : Option Nat → Bool
  | some n => n != 0
  | none => false

/-- JavaScript truthiness of an optional string: present and nonempty. -/
def truthyStr : Option String → Bool
  | some s => s != ""
  | none => false

/-- JavaScript a || b for numbers: the value when truthy, otherwise the
default. -/
def numOr (o : Option Int) (d : Int) : Int :=
  match o with
  | some n => if n = 0 then d else n
  | none => d

/-- JavaScript s || null and s || undefined for strings: none when absent or
empty. -/
def strOrNone (o : Option String) : Option String :=
  match o with
  | some s => if s = "" then none else some s
  | none => none

/-- List-level startsWith (first argument is the candidate prefix). -/
def strLeads : List Char → List Char → Bool
  | [], _ => true
  | _ :: _, [] => false
  | c :: cs, d :: ds => c == d && strLeads cs ds

/-- String.prototype.startsWith. -/
def strStartsWith (s pat : String) : Bool := strLeads pat.data s.data

/-- JavaScript digit test for the regex \d. -/
def isDigitCode (c : Char) : Bool := 48 ≤ c.toNat && c.toNat ≤ 57

/-- String.prototype.trim: strip leading and trailing whitespace. -/
def strTrim (s : String) : String :=
  let ws := fun c : Char => c == ' ' || c == '\t' || c == '\n' || c == '\r'
  String.mk (((s.data.dropWhile ws).reverse.dropWhile ws).reverse)

/-- The bookkeeping keys loadWitnessData skips: signaling and peer-discovery
namespaces. -/
def skipKey (key : String) : Bool :=
  key == "webrtc-signaling" || key == "peers" ||
  strStartsWith key "webrtc-" || strStartsWith key "peer-"

/-- The versioned-copy test of loadWitnessData: key.includes of "-v"
together with a regex match of dash, letter v, one or more digits at the end
of the key (the regex match implies the includes test). -/
def isVersionedKey (key : String) : Bool :=
  let cs := key.data.reverse
  let ds := cs.takeWhile isDigitCode
  decide (ds ≠ []) &&
    (match cs.drop ds.length with
     | 'v' :: '-' :: _ => true
     | _ => false)

/-- The Witness object loadWitnessData constructs from an object-format
record, with the JavaScript defaulting rules ( || fallbacks, truthiness
guards for proof and position).  rnd stands for the Math.random() value used
when entropySeed is falsy.  The lastUpdate field of the metadata is not set
by this constructor (the source only copies data.lastUpdate into metadata in
the update branch of the merge). -/
def witnessFromGunData (d : GunData) (rnd : Int) : Witness :=
  { id := d.id.getD ""
    text := d.text.getD ""
    createdAt := d.createdAt.getD 0
    expiresAt := d.expiresAt.getD 0
    witnessCount := numOr d.witnessCount 1
    lastWitnessed := numOr d.lastWitnessed (d.createdAt.getD 0)
    contextOf := strOrNone d.contextOf
    proof :=
      if truthyNat d.proofNonce && truthyStr d.proofHash then
        some { nonce := d.proofNonce.getD 0, hash := d.proofHash.getD "" }
      else none
    metadata :=
      { affect := none
        entropySeed := numOr d.entropySeed rnd
        contextTag := strOrNone d.contextTag
        position :=
          if truthyNum d.positionX && truthyNum d.positionY then
            some { x := d.positionX.getD 0, y := d.positionY.getD 0 }
          else none
        lastUpdate := none } }

/-- The proof-of-work stage of loadWitnessData: records without a proof pass,
records with a proof pass only if it verifies against the trimmed text. -/
def powCheckPasses (w : Witness) : Bool :=
  match w.proof with
  | some pr => verifyProofOfWork (strTrim w.text) pr
  | none => true

/-- The display-decay adjustment applied both on load and on the periodic
cleanup tick: recompute the effective count and, when it differs, store it in
the witnessCount field (expiresAt is left untouched). -/
def decayAdjust (w : Witness) (now : Int) : Witness :=
  let effectiveCount := calculateCurrentWitnessCount w now
  if effectiveCount ≠ w.witnessCount then { w with witnessCount := effectiveCount }
  else w

/-! ## Replication merge engine (loadWitnessData of the store module) -/

/-- Outcome of one application of loadWitnessData to an incoming record. -/
inductive MergeOutcome where
  | skippedKey
  | skippedVersioned
  | invalidData
  | incomplete
  | invalidProof
  | expired
  | added
  | updated
  | stale
deriving DecidableEq, Repr

/-- The merge condition of loadWitnessData for an id already present: the
stored copy is overwritten when the (decay-adjusted) incoming witnessCount
differs, or the incoming expiresAt differs, or the incoming record carries a
truthy lastUpdate and the stored copy has none (or a not-greater one). -/
def mergeCondition (d : GunData) (existing w : Witness) : Prop :=
  existing.witnessCount ≠ w.witnessCount ∨
  existing.expiresAt ≠ w.expiresAt ∨
  (truthyNum d.lastUpdate = true ∧
    (truthyNum existing.metadata.lastUpdate = false ∨
      d.lastUpdate.getD 0 > existing.metadata.lastUpdate.getD 0))

instance (d : GunData) (existing w : Witness) : Decidable (mergeCondition d existing w) := by
  unfold mergeCondition
  infer_instance

/-- The overwriting copy built in the update branch of loadWitnessData: the
incoming witness, with the locally stored position preserved when one exists,
and with the incoming lastUpdate recorded in the metadata. -/
def mergedRecord (d : GunData) (existing w : Witness) : Witness :=
  let w1 :=
    if existing.metadata.position.isSome then
      { w with metadata := { w.metadata with position := existing.metadata.position } }
    else w
  { w1 with metadata := { w1.metadata with lastUpdate := d.lastUpdate } }

/-- The final stage of loadWitnessData, continued: drop the record if
expired, add it if the id is new, otherwise overwrite under the merge
condition. -/
def mergeIntoStore (d : GunData) (w : Witness) (now : Int) (store : List Witness) :
    List Witness × MergeOutcome :=
  if w.expiresAt > now then
    match store.find? (fun x => x.id == w.id) with
    | none => (store ++ [w], .added)
    | some existing =>
      if mergeCondition d existing w then
        (store.map (fun x => if x.id == w.id then mergedRecord d existing w else x),
         .updated)
      else (store, .stale)
  else (store, .expired)

/-- loadWitnessData for an object-format record: skip bookkeeping and
versioned keys, reject records without a truthy id, skip incomplete records,
reject records whose attached proof fails verification, then decay-adjust the
count and merge.  (The legacy JSON-string branch of the source is not
modelled; all records considered here arrive in object format.) -/
def loadWitnessData (key : String) (d : GunData) (now : Int) (rnd : Int)
    (store : List Witness) : List Witness × MergeOutcome :=
  if skipKey key then (store, .skippedKey)
  else if isVersionedKey key then (store, .skippedVersioned)
  else if truthyStr d.id = false then (store, .invalidData)
  else if truthyStr d.text = false ∨ truthyNum d.createdAt = false ∨
          truthyNum d.expiresAt = false then (store, .incomplete)
  else if powCheckPasses (witnessFromGunData d rnd) then
    mergeIntoStore d (decayAdjust (witnessFromGunData d rnd) now) now store
  else (store, .invalidProof)

/-! ## Re-validation (reWitness of the store module) -/

/-- The object literal written to Gun on a re-validation (gunData in
reWitness): the witness fields with || null defaulting, plus the lastUpdate
version timestamp and the updateSeq sequence number. -/
structure GunPutData where
  id : String
  text : String
  createdAt : Int
  expiresAt : Int
  witnessCount : Int
  lastWitnessed : Int
  contextOf : Option String
  proofNonce : Option Nat
  proofHash : Option String
  entropySeed : Int
  contextTag : Option String
  positionX : Option Int
  positionY : Option Int
  lastUpdate : Int
  updateSeq : Int
deriving DecidableEq, Repr

/-- Build the Gun put object from a witness (the || null defaults turn empty
strings and zero coordinates into null). -/
def gunDataOfWitness (w : Witness) (lastUpdate : Int) : GunPutData :=
  { id := w.id
    text := w.text
    createdAt := w.createdAt
    expiresAt := w.expiresAt
    witnessCount := w.witnessCount
    lastWitnessed := w.lastWitnessed
    contextOf := strOrNone w.contextOf
    proofNonce :=
      match w.proof with
      | some pr => if pr.nonce = 0 then none else some pr.nonce
      | none => none
    proofHash :=
      match w.proof with
      | some pr => if pr.hash = "" then none else some pr.hash
      | none => none
    entropySeed := w.metadata.entropySeed
    contextTag := strOrNone w.metadata.contextTag
    positionX :=
      match w.metadata.position with
      | some p => if p.x = 0 then none else some p.x
      | none => none
    positionY :=
      match w.metadata.position with
      | some p => if p.y = 0 then none else some p.y
      | none => none
    lastUpdate := lastUpdate
    updateSeq := w.witnessCount }

/-- The validation payload reWitness hashes: rewitness:id:timestamp. -/
def powPayload (witnessId : String) (now : Int) : String :=
  "rewitness:" ++ witnessId ++ ":" ++ toString now

/-- Everything reWitness does: the resulting local store, the proof of work
it computed (and then never uses), the UPDATE_WITNESS broadcasts to the tab
channel and to the WebRTC peers, and the Gun puts (main key and versioned
copy). -/
structure ReWitnessResult where
  store : List Witness
  computedProof : Option Proof
  tabMessages : List Witness
  rtcMessages : List Witness
  gunPuts : List (String × GunPutData)
deriving DecidableEq, Repr

/-- reWitness: if the id is unknown, return at once (nothing is computed,
stored, broadcast or written).  Otherwise compute a proof of work over the
validation payload (stopNonce abstracts where its 1-second deadline hits),
bump witnessCount, set lastWitnessed, recompute expiresAt, replace the record
in the store, broadcast the updated copy, and put it to Gun under the main
key and under a versioned key. -/
def reWitness (store : List Witness) (witnessId : String) (now : Int)
    (stopNonce : Nat) : ReWitnessResult :=
  match store.find? (fun w => w.id == witnessId) with
  | none => { store := store, computedProof := none, tabMessages := [],
              rtcMessages := [], gunPuts := [] }
  | some _ =>
    let proof := computeProofOfWork (powPayload witnessId now) stopNonce
    let update := fun (w : Witness) =>
      if w.id == witnessId then
        let newWitnessCount := w.witnessCount + 1
        { w with witnessCount := newWitnessCount, lastWitnessed := now,
                 expiresAt := calculateExpiration newWitnessCount now now }
      else w
    let updatedStore := store.map update
    match (store.filter (fun w => w.id == witnessId)).getLast? with
    | none =>
      { store := updatedStore, computedProof := some proof, tabMessages := [],
        rtcMessages := [], gunPuts := [] }
    | some wLast =>
      let updatedWitness := update wLast
      let gunData := gunDataOfWitness updatedWitness now
      { store := updatedStore
        computedProof := some proof
        tabMessages := [updatedWitness]
        rtcMessages := [updatedWitness]
        gunPuts := [(witnessId, gunData),
                    (witnessId ++ "-v" ++ toString updatedWitness.witnessCount, gunData)] }

/-! ## Periodic cleanup (store module), sync-test cleanup timer, and the
emergency store cleanup -/

/-- The periodic cleanup tick of the store module: apply the display-decay
adjustment to every stored witness, then drop the expired ones. -/
def cleanupTick (now : Int) (store : List Witness) : List Witness :=
  getActiveWitnesses now (store.map (fun w => decayAdjust w now))

/-- Memory cap of the sync-test page. -/
def MAX_WITNESSES_IN_MEMORY : Nat := 200

/-- Last-touch time used by the sync-test memory limit: max(lastWitnessed,
createdAt). -/
def touchTime (w : Witness) : Int := max w.lastWitnessed w.createdAt

/-- The descending-by-touch-time ordering of the sync-test sort comparator. -/
def touchGE (a b : Witness) : Prop := touchTime b ≤ touchTime a

instance : DecidableRel touchGE := fun a b => by
  unfold touchGE
  infer_instance

instance : IsTotal Witness touchGE :=
  ⟨fun a b => (le_total (touchTime b) (touchTime a)).elim Or.inl Or.inr⟩

instance : IsTrans Witness touchGE :=
  ⟨fun _ _ _ hab hbc => le_trans hbc hab⟩

/-- The memory-limit step of the sync-test cleanup timer: when the active set
exceeds the limit, keep the most recently touched entries (sort descending by
max(lastWitnessed, createdAt) and take the first limit entries). -/
def trimToMemoryLimit (limit : Nat) (active : List Witness) : List Witness :=
  if active.length > limit then (List.insertionSort touchGE active).take limit
  else active

/-- The full cleanup timer tick of the sync-test page: display-decay
adjustment, expiry filter, then the memory limit. -/
def cleanupTimerTick (limit : Nat) (now : Int) (store : List Witness) : List Witness :=
  trimToMemoryLimit limit (getActiveWitnesses now (store.map (fun w => decayAdjust w now)))

/-- Hard capacity of the emergency store (EMERGENCY_CONFIG.maxWitnesses). -/
def EMERGENCY_MAX_WITNESSES : Nat := 50

/-- emergencyCleanup of the emergency store: remove expired entries (putting
null tombstones for them), and if the active set still exceeds the capacity,
sort ascending by createdAt and remove the oldest entries until at capacity.
Returns the remaining list and the ids whose Gun nodes were nulled. -/
def emergencyCleanup (maxWitnesses : Nat) (now : Int) (store : List Witness) :
    List Witness × List String :=
  let expired := store.filter (fun w => w.expiresAt ≤ now)
  let active := store.filter (fun w => w.expiresAt > now)
  let expiredDeletes := expired.map (fun w => w.id)
  if active.length > maxWitnesses then
    let sorted := List.insertionSort (fun a b => a.createdAt ≤ b.createdAt) active
    let toRemove := sorted.take (active.length - maxWitnesses)
    (sorted.drop (active.length - maxWitnesses),
     expiredDeletes ++ toRemove.map (fun w => w.id))
  else (active, expiredDeletes)

/-! ## Concrete fixtures used by witnesses and counterexamples -/

/-- An incoming record for id a with ordering key (1, 50): lower witnessCount
and lower lastUpdate than the local copy it will meet. -/
def recC1 : GunData :=
  { id := some "a", text := some "t", createdAt := some 1, expiresAt := some 1000,
    witnessCount := some 1, lastWitnessed := some 50, contextOf := none,
    proofNonce := none, proofHash := none, entropySeed := some 7, contextTag := none,
    positionX := none, positionY := none, lastUpdate := some 50 }

/-- The local copy for id a with ordering key (2, 100). -/
def localC1 : Witness :=
  { id := "a", text := "t", createdAt := 1, expiresAt := 1000, witnessCount := 2,
    lastWitnessed := 50, contextOf := none, proof := none,
    metadata := { affect := none, entropySeed := 7, contextTag := none,
                  position := none, lastUpdate := some 100 } }

/-- An incoming record with ordering key (2, 100) and expiresAt 1000. -/
def recC2a : GunData :=
  { id := some "a", text := some "t", createdAt := some 1, expiresAt := some 1000,
    witnessCount := some 2, lastWitnessed := some 1, contextOf := none,
    proofNonce := none, proofHash := none, entropySeed := some 7, contextTag := none,
    positionX := none, positionY := none, lastUpdate := some 100 }

/-- The same record except expiresAt 2000: identical ordering key. -/
def recC2b : GunData := { recC2a with expiresAt := some 2000 }

/-- A stored witness with count 3 last touched at time 0. -/
def storedC4 : Witness :=
  { id := "x", text := "t", createdAt := 0, expiresAt := 1000000000, witnessCount := 3,
    lastWitnessed := 0, contextOf := none, proof := none,
    metadata := { affect := none, entropySeed := 0, contextTag := none,
                  position := none, lastUpdate := none } }

/-- A stored witness whose lastWitnessed lies in the future of the query
time. -/
def storedC7 : Witness := { storedC4 with witnessCount := 1, lastWitnessed := 240000 }

/-- A stored witness for id a carrying an (arbitrary) old proof. -/
def storedC5 : Witness :=
  { storedC4 with id := "a", proof := some { nonce := 42, hash := "deadbeef" } }

/-- Three active witnesses with distinct touch times; createdAt order is the
reverse of the lastWitnessed order. -/
def wTouch300 : Witness :=
  { storedC4 with id := "e1", createdAt := 1, lastWitnessed := 300, expiresAt := 1000 }

/-- Touched at 200, created second. -/
def wTouch200 : Witness :=
  { storedC4 with id := "e2", createdAt := 2, lastWitnessed := 200, expiresAt := 1000 }

/-- Touched at 100, created last. -/
def wTouch100 : Witness :=
  { storedC4 with id := "e3", createdAt := 3, lastWitnessed := 100, expiresAt := 1000 }

/-! ## Helper lemmas -/

/-- Chain two iterate computations. -/
theorem iterChain {f : Nat → Nat} {a b n x y z : Nat}
    (h1 : f^[a] x = y) (h2 : f^[b] y = z) (hn : n = b + a) : f^[n] x = z := by
  subst hn
  rw [Function.iterate_add_apply, h1, h2]

/-- decayAdjust never changes the expiration timestamp. -/
theorem decayAdjust_expiresAt (w : Witness) (now : Int) :
    (decayAdjust w now).expiresAt = w.expiresAt := by
  by_cases h : calculateCurrentWitnessCount w now ≠ w.witnessCount <;>
    simp [decayAdjust, h]

/-- decayAdjust never changes the id. -/
theorem decayAdjust_id (w : Witness) (now : Int) :
    (decayAdjust w now).id = w.id := by
  by_cases h : calculateCurrentWitnessCount w now ≠ w.witnessCount <;>
    simp [decayAdjust, h]

/-- Replacing the found element of a list by a value that still satisfies the
search predicate makes the replacement the found element, when the
replacement map fixes every element that fails the predicate. -/
theorem find?_map_replace (l : List Witness) (idv : String) (w2 : Witness)
    (e : Witness) (h : l.find? (fun x => x.id == idv) = some e)
    (hw2 : (w2.id == idv) = true) :
    (l.map (fun x => if x.id == idv then w2 else x)).find? (fun x => x.id == idv) =
      some w2 := by
  induction l with
  | nil => simp at h
  | cons a t ih =>
    by_cases ha : (a.id == idv) = true
    · rw [List.map_cons, if_pos ha]
      exact List.find?_cons_of_pos _ hw2
    · have h2 : List.find? (fun x => x.id == idv) t = some e := by
        rwa [List.find?_cons_of_neg _ (by simp [ha])] at h
      rw [List.map_cons, if_neg ha]
      rw [List.find?_cons_of_neg _ (by simp [ha])]
      exact ih h2

/-- The merged record keeps the id of the incoming witness. -/
theorem mergedRecord_id (d : GunData) (e w : Witness) :
    (mergedRecord d e w).id = w.id := by
  by_cases h : e.metadata.position.isSome <;> simp [mergedRecord, h]

/-- The merged record keeps the witnessCount of the incoming witness. -/
theorem mergedRecord_witnessCount (d : GunData) (e w : Witness) :
    (mergedRecord d e w).witnessCount = w.witnessCount := by
  by_cases h : e.metadata.position.isSome <;> simp [mergedRecord, h]

/-- The merged record keeps the expiresAt of the incoming witness. -/
theorem mergedRecord_expiresAt (d : GunData) (e w : Witness) :
    (mergedRecord d e w).expiresAt = w.expiresAt := by
  by_cases h : e.metadata.position.isSome <;> simp [mergedRecord, h]

/-- The merged record records the incoming lastUpdate in its metadata. -/
theorem mergedRecord_lastUpdate (d : GunData) (e w : Witness) :
    (mergedRecord d e w).metadata.lastUpdate = d.lastUpdate := by
  by_cases h : e.metadata.position.isSome <;> simp [mergedRecord, h]

/-- After an overwrite, re-merging the same incoming witness is a stale
no-op: the stored copy now agrees on witnessCount and expiresAt and carries
the incoming lastUpdate, so the merge condition fails. -/
theorem mergeIntoStore_updated_then_stale (d : GunData) (w : Witness) (now : Int)
    (store : List Witness)
    (h : (mergeIntoStore d w now store).2 = .updated) :
    mergeIntoStore d w now (mergeIntoStore d w now store).1 =
      ((mergeIntoStore d w now store).1, .stale) := by
  by_cases hexp : w.expiresAt > now
  · cases hfind : store.find? (fun x => x.id == w.id) with
    | none =>
      exfalso
      unfold mergeIntoStore at h
      rw [if_pos hexp, hfind] at h
      simp at h
    | some e =>
      by_cases hc : mergeCondition d e w
      · have hfst : mergeIntoStore d w now store =
            (store.map (fun x => if x.id == w.id then mergedRecord d e w else x),
             .updated) := by
          unfold mergeIntoStore
          rw [if_pos hexp, hfind]
          dsimp only
          rw [if_pos hc]
        have hbeq : ((mergedRecord d e w).id == w.id) = true := by
          rw [mergedRecord_id]
          exact beq_self_eq_true w.id
        have hfind2 :
            ((store.map (fun x => if x.id == w.id then mergedRecord d e w else x)).find?
              (fun x => x.id == w.id)) = some (mergedRecord d e w) :=
          find?_map_replace store w.id (mergedRecord d e w) e hfind hbeq
        have hnc : ¬ mergeCondition d (mergedRecord d e w) w := by
          unfold mergeCondition
          rw [mergedRecord_witnessCount, mergedRecord_expiresAt, mergedRecord_lastUpdate]
          rintro (hwc | hex | ⟨hlu, hdisj⟩)
          · exact hwc rfl
          · exact hex rfl
          · cases hl : d.lastUpdate with
            | none => rw [hl] at hlu; simp [truthyNum] at hlu
            | some q =>
              rw [hl] at hlu hdisj
              rcases hdisj with hfalse | hgt
              · rw [hlu] at hfalse
                simp at hfalse
              · exact lt_irrefl _ hgt
        rw [hfst]
        unfold mergeIntoStore
        rw [if_pos hexp, hfind2]
        dsimp only
        rw [if_neg hnc]
      · exfalso
        unfold mergeIntoStore at h
        rw [if_pos hexp, hfind] at h
        simp [hc] at h
  · exfalso
    unfold mergeIntoStore at h
    rw [if_neg hexp] at h
    simp at h

/-- When every validation stage passes, loadWitnessData is the merge of the
decay-adjusted incoming witness. -/
theorem loadWitnessData_passes (key : String) (d : GunData) (now rnd : Int)
    (store : List Witness)
    (h1 : skipKey key = false) (h2 : isVersionedKey key = false)
    (h3 : truthyStr d.id = true) (h4 : truthyStr d.text = true)
    (h5 : truthyNum d.createdAt = true) (h6 : truthyNum d.expiresAt = true)
    (h7 : powCheckPasses (witnessFromGunData d rnd) = true) :
    loadWitnessData key d now rnd store =
      mergeIntoStore d (decayAdjust (witnessFromGunData d rnd) now) now store := by
  unfold loadWitnessData
  rw [if_neg (by simp [h1]), if_neg (by simp [h2]), if_neg (by simp [h3]),
      if_neg (by simp [h4, h5, h6]), if_pos (by simp [h7])]

/-- An incoming record whose expiresAt (5) is already in the past. -/
def recC6 : GunData := { recC2a with expiresAt := some 5 }

/-- The spec-side encoding: the unsigned 32-bit hexadecimal string of a bit
pattern. -/
def unsignedHex (n : Nat) : String := String.mk (Nat.toDigits 16 n)

/-- C1 (amended): for a record arriving for an id already present, the merge
engine accepts and overwrites the local copy iff the decay-adjusted incoming
witnessCount differs from the local one, or the incoming expiresAt differs,
or the incoming record carries a truthy lastUpdate that the local copy lacks
or does not exceed; otherwise the record is dropped as stale and the store is
unchanged.  (The source does not compare the (witnessCount, lastUpdate) pair
lexicographically.) -/
theorem loadWitnessData_overwrite_iff (key : String) (d : GunData) (now rnd : Int)
    (store : List Witness) (e : Witness)
    (h1 : skipKey key = false) (h2 : isVersionedKey key = false)
    (h3 : truthyStr d.id = true) (h4 : truthyStr d.text = true)
    (h5 : truthyNum d.createdAt = true) (h6 : truthyNum d.expiresAt = true)
    (h7 : powCheckPasses (witnessFromGunData d rnd) = true)
    (h8 : (decayAdjust (witnessFromGunData d rnd) now).expiresAt > now)
    (h9 : store.find?
      (fun x => x.id == (decayAdjust (witnessFromGunData d rnd) now).id) = some e) :
    ((loadWitnessData key d now rnd store).2 = .updated ↔
      mergeCondition d e (decayAdjust (witnessFromGunData d rnd) now)) ∧
    (¬ mergeCondition d e (decayAdjust (witnessFromGunData d rnd) now) →
      loadWitnessData key d now rnd store = (store, .stale)) := by
  rw [loadWitnessData_passes key d now rnd store h1 h2 h3 h4 h5 h6 h7]
  unfold mergeIntoStore
  rw [if_pos h8, h9]
  dsimp only
  by_cases hc : mergeCondition d e (decayAdjust (witnessFromGunData d rnd) now)
  · rw [if_pos hc]
    exact ⟨by simp [hc], fun hn => absurd hc hn⟩
  · rw [if_neg hc]
    exact ⟨by simp [hc], fun _ => rfl⟩

/-- Witness: a concrete record for an already-present id that reaches the
merge stage; the overwrite outcome coincides with the merge condition. -/
theorem loadWitnessData_overwrite_iff_witness :
    ((loadWitnessData "a" recC1 50 0 [localC1]).2 = .updated ↔
      mergeCondition recC1 localC1 (decayAdjust (witnessFromGunData recC1 0) 50)) ∧
    (¬ mergeCondition recC1 localC1 (decayAdjust (witnessFromGunData recC1 0) 50) →
      loadWitnessData "a" recC1 50 0 [localC1] = ([localC1], .stale)) :=
  loadWitnessData_overwrite_iff "a" recC1 50 0 [localC1] localC1 (by decide) (by decide)
    (by decide) (by decide) (by decide) (by decide) (by decide) (by decide) (by decide)

/-- Counterexample to C1 as stated: an incoming record with ordering key
(1, 50), strictly below the local copy's key (2, 100), is nevertheless
accepted and overwrites the local copy (its witnessCount differs). -/
theorem loadWitnessData_accepts_lower_ordering_key :
    (loadWitnessData "a" recC1 50 0 [localC1]).2 = .updated ∧
    ((loadWitnessData "a" recC1 50 0 [localC1]).1).map (fun w => w.witnessCount) = [1] ∧
    localC1.witnessCount = 2 ∧ localC1.metadata.lastUpdate = some 100 ∧
    (witnessFromGunData recC1 0).witnessCount = 1 ∧ recC1.lastUpdate = some 50 := by
  decide

/-- C2 (amended): re-applying an incoming record immediately after it was
accepted as an overwrite is a stale no-op: the store is unchanged. -/
theorem loadWitnessData_updated_then_stale (key : String) (d : GunData) (now rnd : Int)
    (store : List Witness)
    (h : (loadWitnessData key d now rnd store).2 = .updated) :
    loadWitnessData key d now rnd (loadWitnessData key d now rnd store).1 =
      ((loadWitnessData key d now rnd store).1, .stale) := by
  unfold loadWitnessData at h ⊢
  split_ifs at h ⊢ with g1 g2 g3 g4 g5
  exact mergeIntoStore_updated_then_stale _ _ _ _ h

/-- Witness: re-applying the concrete record of the C1 scenario right after
its accepted overwrite leaves the store unchanged and reports stale. -/
theorem loadWitnessData_updated_then_stale_witness :
    loadWitnessData "a" recC1 50 0 (loadWitnessData "a" recC1 50 0 [localC1]).1 =
      ((loadWitnessData "a" recC1 50 0 [localC1]).1, .stale) :=
  loadWitnessData_updated_then_stale "a" recC1 50 0 [localC1] (by decide)

/-- Counterexample to C2 as stated: two records for the same id with
identical ordering keys (witnessCount 2, lastUpdate 100) but different
expiresAt overwrite each other, so the two application orders leave different
(id, witnessCount, expiresAt) tuples: merge application is neither
commutative nor convergent, and a record whose ordering key equals the stored
one can still change the store. -/
theorem loadWitnessData_not_commutative :
    (((loadWitnessData "a" recC2b 1 0 (loadWitnessData "a" recC2a 1 0 []).1).1).map
        (fun w => (w.id, w.witnessCount, w.expiresAt)) = [("a", 2, 2000)]) ∧
    (((loadWitnessData "a" recC2a 1 0 (loadWitnessData "a" recC2b 1 0 []).1).1).map
        (fun w => (w.id, w.witnessCount, w.expiresAt)) = [("a", 2, 1000)]) ∧
    recC2a.witnessCount = recC2b.witnessCount ∧
    recC2a.lastUpdate = recC2b.lastUpdate := by
  decide

/-- C6 (confirmed): a record whose expiresAt is at or before the current time
never changes the store, and when it passes every earlier validation stage it
is rejected precisely as expired-on-arrival (nothing is propagated: no branch
of loadWitnessData broadcasts). -/
theorem loadWitnessData_expired_on_arrival (key : String) (d : GunData) (now rnd : Int)
    (store : List Witness) (e : Int)
    (he : d.expiresAt = some e) (hle : e ≤ now) :
    (loadWitnessData key d now rnd store).1 = store ∧
    ((skipKey key = false ∧ isVersionedKey key = false ∧ truthyStr d.id = true ∧
      truthyStr d.text = true ∧ truthyNum d.createdAt = true ∧
      truthyNum d.expiresAt = true ∧
      powCheckPasses (witnessFromGunData d rnd) = true) →
      (loadWitnessData key d now rnd store).2 = .expired) := by
  have hexp : (decayAdjust (witnessFromGunData d rnd) now).expiresAt = e := by
    rw [decayAdjust_expiresAt]
    simp [witnessFromGunData, he]
  unfold loadWitnessData
  split_ifs with g1 g2 g3 g4 g5
  · exact ⟨rfl, fun hc => absurd hc.1 (by simp [g1])⟩
  · exact ⟨rfl, fun hc => absurd hc.2.1 (by simp [g2])⟩
  · exact ⟨rfl, fun hc => absurd hc.2.2.1 (by simp [g3])⟩
  · refine ⟨rfl, fun hc => ?_⟩
    rcases g4 with g | g | g
    · exact absurd hc.2.2.2.1 (by simp [g])
    · exact absurd hc.2.2.2.2.1 (by simp [g])
    · exact absurd hc.2.2.2.2.2.1 (by simp [g])
  · unfold mergeIntoStore
    rw [if_neg (by rw [hexp]; omega)]
    exact ⟨rfl, fun _ => rfl⟩
  · exact ⟨rfl, fun hc => absurd hc.2.2.2.2.2.2 (by simp [g5])⟩

/-- Witness: a concrete record with expiresAt 5 arriving at time 10 leaves
the store unchanged and, passing all earlier stages, is rejected as
expired. -/
theorem loadWitnessData_expired_on_arrival_witness :
    (loadWitnessData "k" recC6 10 0 []).1 = [] ∧
    ((skipKey "k" = false ∧ isVersionedKey "k" = false ∧ truthyStr recC6.id = true ∧
      truthyStr recC6.text = true ∧ truthyNum recC6.createdAt = true ∧
      truthyNum recC6.expiresAt = true ∧
      powCheckPasses (witnessFromGunData recC6 0) = true) →
      (loadWitnessData "k" recC6 10 0 []).2 = .expired) :=
  loadWitnessData_expired_on_arrival "k" recC6 10 0 [] 5 (by decide) (by decide)

/-- C10 (confirmed): reWitness on an id absent from the local store is a
complete no-op: the store is returned unchanged, no proof of work is
computed, nothing is broadcast to the tab channel or the WebRTC peers, and
nothing is written to Gun. -/
theorem reWitness_unknown_id_noop (store : List Witness) (witnessId : String)
    (now : Int) (stopNonce : Nat)
    (h : store.find? (fun w => w.id == witnessId) = none) :
    reWitness store witnessId now stopNonce =
      { store := store, computedProof := none, tabMessages := [],
        rtcMessages := [], gunPuts := [] } := by
  unfold reWitness
  rw [h]

/-- Witness: re-witnessing an id that is not in the store does nothing. -/
theorem reWitness_unknown_id_noop_witness :
    reWitness [storedC4] "missing" 500 0 =
      { store := [storedC4], computedProof := none, tabMessages := [],
        rtcMessages := [], gunPuts := [] } :=
  reWitness_unknown_id_noop [storedC4] "missing" 500 0 (by decide)

/-- An incoming record with stored count 3 last witnessed at time 1, far
from expiring. -/
def recC4 : GunData :=
  { recC2a with
    id := some "x"
    witnessCount := some 3
    lastWitnessed := some 1
    expiresAt := some 1000000000 }

/-- C4: the periodic cleanup tick writes the decayed effective count back
into the stored record: a witness stored with witnessCount 3 and
lastWitnessed 0 holds witnessCount 1 after the tick at time 240000 (two
two-minute decay intervals), so the stored field decreases; the load path at
time 240001 stores the decayed count of an incoming record (stored count 3,
lastWitnessed 1) the same way. -/
theorem cleanupTick_writes_decayed_count :
    (cleanupTick 240000 [storedC4]).map (fun w => w.witnessCount) = [1] ∧
    storedC4.witnessCount = 3 ∧
    (loadWitnessData "x" recC4 240001 0 []).1.map (fun w => w.witnessCount) = [1] ∧
    recC4.witnessCount = some 3 := by
  decide

/-- C5 (amended): reWitness never changes the proof of any stored record; in
particular the freshly updated copy keeps the old proof (the newly computed
proof is discarded). -/
theorem reWitness_preserves_proofs (store : List Witness) (witnessId : String)
    (now : Int) (stopNonce : Nat) :
    ((reWitness store witnessId now stopNonce).store).map (fun w => w.proof) =
      store.map (fun w => w.proof) := by
  unfold reWitness
  cases hfind : store.find? (fun w => w.id == witnessId) with
  | none => rfl
  | some w0 =>
    dsimp only
    have hmap : ∀ l : List Witness,
        (l.map (fun w =>
          if w.id == witnessId then
            { w with witnessCount := w.witnessCount + 1, lastWitnessed := now,
                     expiresAt := calculateExpiration (w.witnessCount + 1) now now }
          else w)).map (fun w => w.proof) = l.map (fun w => w.proof) := by
      intro l
      rw [List.map_map]
      refine List.map_congr_left (fun x _ => ?_)
      by_cases hx : (x.id == witnessId) = true <;> simp [Function.comp, hx]
    cases hlast : (store.filter (fun w => w.id == witnessId)).getLast? with
    | none => exact hmap store
    | some wl => exact hmap store

/-- Counterexample to C5 as stated: re-witnessing a record that carries proof
(42, deadbeef) computes a fresh proof with nonce 1, but the updated record
and both Gun puts still carry the old proof; the new proof is attached
nowhere. -/
theorem reWitness_attaches_old_proof :
    ((reWitness [storedC5] "a" 100 0).store).map (fun w => w.proof) =
      [some { nonce := 42, hash := "deadbeef" }] ∧
    ((reWitness [storedC5] "a" 100 0).computedProof).map (fun p => p.nonce) = some 1 ∧
    ((reWitness [storedC5] "a" 100 0).computedProof).map (fun p => p.nonce) ≠ some 42 ∧
    ((reWitness [storedC5] "a" 100 0).gunPuts).map (fun p => p.2.proofNonce) =
      [some 42, some 42] := by
  refine ⟨by decide, rfl, by decide, by decide⟩

/-- C7 (amended): whenever the query time is at or after lastWitnessed and
the stored count is at least 1, the effective display count never exceeds the
stored witnessCount. -/
theorem calculateCurrentWitnessCount_le_stored (witness : Witness) (now : Int)
    (h1 : witness.lastWitnessed ≤ now) (h2 : 1 ≤ witness.witnessCount) :
    calculateCurrentWitnessCount witness now ≤ witness.witnessCount := by
  have hd : 0 ≤ Int.fdiv (now - witness.lastWitnessed) (2 * 60 * 1000) :=
    Int.fdiv_nonneg (by omega) (by norm_num)
  simp only [calculateCurrentWitnessCount, DEV_MODE, Bool.false_eq_true, if_false]
  exact max_le h2 (by omega)

/-- Witness: at time 240000 the effective count of a record last touched at 0
does not exceed its stored count. -/
theorem calculateCurrentWitnessCount_le_stored_witness :
    calculateCurrentWitnessCount storedC4 240000 ≤ storedC4.witnessCount :=
  calculateCurrentWitnessCount_le_stored storedC4 240000 (by decide) (by decide)

/-- Counterexample to C7 as stated: for a record whose lastWitnessed (240000)
lies after the query time (0), Math.floor of the negative elapsed time yields
negative decay steps and the effective count (3) exceeds the stored
witnessCount (1). -/
theorem calculateCurrentWitnessCount_exceeds_stored :
    calculateCurrentWitnessCount storedC7 0 = 3 ∧ storedC7.witnessCount = 1 := by
  decide

/-- C8 (amended, sync-test side): the memory-limit step of the sync-test
cleanup timer keeps min(limit, length) entries, and every evicted entry is
touched no later than every kept entry (eviction removes the
least-recently-touched by max(lastWitnessed, createdAt)). -/
theorem trimToMemoryLimit_keeps_most_recent (limit : Nat) (l : List Witness) :
    (trimToMemoryLimit limit l).length = min limit l.length ∧
    ∀ x ∈ trimToMemoryLimit limit l, ∀ y ∈ l, y ∉ trimToMemoryLimit limit l →
      touchTime y ≤ touchTime x := by
  unfold trimToMemoryLimit
  by_cases hlen : l.length > limit
  · rw [if_pos hlen]
    have hperm := List.perm_insertionSort touchGE l
    have hsort := List.sorted_insertionSort touchGE l
    refine ⟨by rw [List.length_take, hperm.length_eq], ?_⟩
    intro x hx y hy hyn
    have hy2 : y ∈ List.insertionSort touchGE l := hperm.mem_iff.mpr hy
    have hcases : y ∈ (List.insertionSort touchGE l).take limit ∨
        y ∈ (List.insertionSort touchGE l).drop limit := by
      rw [← List.mem_append, List.take_append_drop]
      exact hy2
    rcases hcases with hyt | hyd
    · exact absurd hyt hyn
    · exact hsort.rel_of_mem_take_of_mem_drop hx hyd
  · rw [if_neg hlen]
    refine ⟨by omega, ?_⟩
    intro x hx y hy hyn
    exact absurd hy hyn

/-- Witness: with limit 2 and three concrete active witnesses with distinct
touch times, the trim keeps two entries and the evicted one (touched at 100)
is no later than a kept one (touched at 300). -/
theorem trimToMemoryLimit_keeps_most_recent_witness :
    (trimToMemoryLimit 2 [wTouch100, wTouch300, wTouch200]).length =
      min 2 ([wTouch100, wTouch300, wTouch200] : List Witness).length ∧
    touchTime wTouch100 ≤ touchTime wTouch300 :=
  ⟨(trimToMemoryLimit_keeps_most_recent 2 [wTouch100, wTouch300, wTouch200]).1,
   (trimToMemoryLimit_keeps_most_recent 2 [wTouch100, wTouch300, wTouch200]).2
     wTouch300 (by decide) wTouch100 (by decide) (by decide)⟩

/-- Counterexample to C8 as stated: the emergency cleanup evicts by oldest
createdAt, not by least max(lastWitnessed, createdAt): with capacity 2 and
three active witnesses whose creation order is the reverse of their touch
order, the survivor set excludes the most recently touched entry e1 (touch
300) and keeps e3 (touch 100). -/
theorem emergencyCleanup_evicts_most_recently_touched :
    (emergencyCleanup 2 0 [wTouch300, wTouch200, wTouch100]).1.map (fun w => w.id) =
      ["e2", "e3"] ∧
    touchTime wTouch300 = 300 ∧ touchTime wTouch200 = 200 ∧
    touchTime wTouch100 = 100 ∧ wTouch300.id = "e1" ∧ wTouch100.id = "e3" := by
  decide

/-! ## Concrete evaluation of the proof-of-work hash

The 10000 avalanche rounds are evaluated in chains of 50-round chunks (the
kernel evaluates each chunk directly; the chunks are chained through
iterChain).  powA covers the data string hello0, powB covers hello1. -/

theorem powA1 : avalancheStep^[50] 3074032030 = 4147518464 := by decide

theorem powA2 : avalancheStep^[100] 3074032030 = 3062272000 :=
  iterChain powA1 (show avalancheStep^[50] 4147518464 = 3062272000 by decide) rfl

theorem powA3 : avalancheStep^[150] 3074032030 = 147667520 :=
  iterChain powA2 (show avalancheStep^[50] 3062272000 = 147667520 by decide) rfl

theorem powA4 : avalancheStep^[200] 3074032030 = 2236017664 :=
  iterChain powA3 (show avalancheStep^[50] 147667520 = 2236017664 by decide) rfl

theorem powA5 : avalancheStep^[250] 3074032030 = 24728064 :=
  iterChain powA4 (show avalancheStep^[50] 2236017664 = 24728064 by decide) rfl

theorem powA6 : avalancheStep^[300] 3074032030 = 714875136 :=
  iterChain powA5 (show avalancheStep^[50] 24728064 = 714875136 by decide) rfl

theorem powA7 : avalancheStep^[350] 3074032030 = 673434624 :=
  iterChain powA6 (show avalancheStep^[50] 714875136 = 673434624 by decide) rfl

theorem powA8 : avalancheStep^[400] 3074032030 = 2065293824 :=
  iterChain powA7 (show avalancheStep^[50] 673434624 = 2065293824 by decide) rfl

theorem powA9 : avalancheStep^[450] 3074032030 = 498802688 :=
  iterChain powA8 (show avalancheStep^[50] 2065293824 = 498802688 by decide) rfl

theorem powA10 : avalancheStep^[500] 3074032030 = 1884393472 :=
  iterChain powA9 (show avalancheStep^[50] 498802688 = 1884393472 by decide) rfl

theorem powA11 : avalancheStep^[550] 3074032030 = 4023308032 :=
  iterChain powA10 (show avalancheStep^[50] 1884393472 = 4023308032 by decide) rfl

theorem powA12 : avalancheStep^[600] 3074032030 = 449261056 :=
  iterChain powA11 (show avalancheStep^[50] 4023308032 = 449261056 by decide) rfl

theorem powA13 : avalancheStep^[650] 3074032030 = 1769757440 :=
  iterChain powA12 (show avalancheStep^[50] 449261056 = 1769757440 by decide) rfl

theorem powA14 : avalancheStep^[700] 3074032030 = 2021140480 :=
  iterChain powA13 (show avalancheStep^[50] 1769757440 = 2021140480 by decide) rfl

theorem powA15 : avalancheStep^[750] 3074032030 = 386127680 :=
  iterChain powA14 (show avalancheStep^[50] 2021140480 = 386127680 by decide) rfl

theorem powA16 : avalancheStep^[800] 3074032030 = 186490624 :=
  iterChain powA15 (show avalancheStep^[50] 386127680 = 186490624 by decide) rfl

theorem powA17 : avalancheStep^[850] 3074032030 = 1614974976 :=
  iterChain powA16 (show avalancheStep^[50] 186490624 = 1614974976 by decide) rfl

theorem powA18 : avalancheStep^[900] 3074032030 = 2617387008 :=
  iterChain powA17 (show avalancheStep^[50] 1614974976 = 2617387008 by decide) rfl

theorem powA19 : avalancheStep^[950] 3074032030 = 1474925056 :=
  iterChain powA18 (show avalancheStep^[50] 2617387008 = 1474925056 by decide) rfl

theorem powA20 : avalancheStep^[1000] 3074032030 = 2226066432 :=
  iterChain powA19 (show avalancheStep^[50] 1474925056 = 2226066432 by decide) rfl

theorem powA21 : avalancheStep^[1050] 3074032030 = 944865536 :=
  iterChain powA20 (show avalancheStep^[50] 2226066432 = 944865536 by decide) rfl

theorem powA22 : avalancheStep^[1100] 3074032030 = 4063292672 :=
  iterChain powA21 (show avalancheStep^[50] 944865536 = 4063292672 by decide) rfl

theorem powA23 : avalancheStep^[1150] 3074032030 = 3381043200 :=
  iterChain powA22 (show avalancheStep^[50] 4063292672 = 3381043200 by decide) rfl

theorem powA24 : avalancheStep^[1200] 3074032030 = 2273442560 :=
  iterChain powA23 (show avalancheStep^[50] 3381043200 = 2273442560 by decide) rfl

theorem powA25 : avalancheStep^[1250] 3074032030 = 2307635200 :=
  iterChain powA24 (show avalancheStep^[50] 2273442560 = 2307635200 by decide) rfl

theorem powA26 : avalancheStep^[1300] 3074032030 = 1083696128 :=
  iterChain powA25 (show avalancheStep^[50] 2307635200 = 1083696128 by decide) rfl

theorem powA27 : avalancheStep^[1350] 3074032030 = 635784952 :=
  iterChain powA26 (show avalancheStep^[50] 1083696128 = 635784952 by decide) rfl

theorem powA28 : avalancheStep^[1400] 3074032030 = 2084838464 :=
  iterChain powA27 (show avalancheStep^[50] 635784952 = 2084838464 by decide) rfl

theorem powA29 : avalancheStep^[1450] 3074032030 = 1475360185 :=
  iterChain powA28 (show avalancheStep^[50] 2084838464 = 1475360185 by decide) rfl

theorem powA30 : avalancheStep^[1500] 3074032030 = 3937734008 :=
  iterChain powA29 (show avalancheStep^[50] 1475360185 = 3937734008 by decide) rfl

theorem powA31 : avalancheStep^[1550] 3074032030 = 1151535360 :=
  iterChain powA30 (show avalancheStep^[50] 3937734008 = 1151535360 by decide) rfl

theorem powA32 : avalancheStep^[1600] 3074032030 = 2510380800 :=
  iterChain powA31 (show avalancheStep^[50] 1151535360 = 2510380800 by decide) rfl

theorem powA33 : avalancheStep^[1650] 3074032030 = 1514729344 :=
  iterChain powA32 (show avalancheStep^[50] 2510380800 = 1514729344 by decide) rfl

theorem powA34 : avalancheStep^[1700] 3074032030 = 721406976 :=
  iterChain powA33 (show avalancheStep^[50] 1514729344 = 721406976 by decide) rfl

theorem powA35 : avalancheStep^[1750] 3074032030 = 3873526528 :=
  iterChain powA34 (show avalancheStep^[50] 721406976 = 3873526528 by decide) rfl

theorem powA36 : avalancheStep^[1800] 3074032030 = 1496468736 :=
  iterChain powA35 (show avalancheStep^[50] 3873526528 = 1496468736 by decide) rfl

theorem powA37 : avalancheStep^[1850] 3074032030 = 4076517120 :=
  iterChain powA36 (show avalancheStep^[50] 1496468736 = 4076517120 by decide) rfl

theorem powA38 : avalancheStep^[1900] 3074032030 = 4018780672 :=
  iterChain powA37 (show avalancheStep^[50] 4076517120 = 4018780672 by decide) rfl

theorem powA39 : avalancheStep^[1950] 3074032030 = 2517601792 :=
  iterChain powA38 (show avalancheStep^[50] 4018780672 = 2517601792 by decide) rfl

theorem powA40 : avalancheStep^[2000] 3074032030 = 2444642816 :=
  iterChain powA39 (show avalancheStep^[50] 2517601792 = 2444642816 by decide) rfl

theorem powA41 : avalancheStep^[2050] 3074032030 = 3615674936 :=
  iterChain powA40 (show avalancheStep^[50] 2444642816 = 3615674936 by decide) rfl

theorem powA42 : avalancheStep^[2100] 3074032030 = 480677888 :=
  iterChain powA41 (show avalancheStep^[50] 3615674936 = 480677888 by decide) rfl

theorem powA43 : avalancheStep^[2150] 3074032030 = 1084363520 :=
  iterChain powA42 (show avalancheStep^[50] 480677888 = 1084363520 by decide) rfl

theorem powA44 : avalancheStep^[2200] 3074032030 = 2542152192 :=
  iterChain powA43 (show avalancheStep^[50] 1084363520 = 2542152192 by decide) rfl

theorem powA45 : avalancheStep^[2250] 3074032030 = 3828631040 :=
  iterChain powA44 (show avalancheStep^[50] 2542152192 = 3828631040 by decide) rfl

theorem powA46 : avalancheStep^[2300] 3074032030 = 4114098944 :=
  iterChain powA45 (show avalancheStep^[50] 3828631040 = 4114098944 by decide) rfl

theorem powA47 : avalancheStep^[2350] 3074032030 = 1786491392 :=
  iterChain powA46 (show avalancheStep^[50] 4114098944 = 1786491392 by decide) rfl

theorem powA48 : avalancheStep^[2400] 3074032030 = 3739331328 :=
  iterChain powA47 (show avalancheStep^[50] 1786491392 = 3739331328 by decide) rfl

theorem powA49 : avalancheStep^[2450] 3074032030 = 3789916480 :=
  iterChain powA48 (show avalancheStep^[50] 3739331328 = 3789916480 by decide) rfl

theorem powA50 : avalancheStep^[2500] 3074032030 = 3011077376 :=
  iterChain powA49 (show avalancheStep^[50] 3789916480 = 3011077376 by decide) rfl

theorem powA51 : avalancheStep^[2550] 3074032030 = 3250568960 :=
  iterChain powA50 (show avalancheStep^[50] 3011077376 = 3250568960 by decide) rfl

theorem powA52 : avalancheStep^[2600] 3074032030 = 231469952 :=
  iterChain powA51 (show avalancheStep^[50] 3250568960 = 231469952 by decide) rfl

theorem powA53 : avalancheStep^[2650] 3074032030 = 2410085120 :=
  iterChain powA52 (show avalancheStep^[50] 231469952 = 2410085120 by decide) rfl

theorem powA54 : avalancheStep^[2700] 3074032030 = 3503069696 :=
  iterChain powA53 (show avalancheStep^[50] 2410085120 = 3503069696 by decide) rfl

theorem powA55 : avalancheStep^[2750] 3074032030 = 318384000 :=
  iterChain powA54 (show avalancheStep^[50] 3503069696 = 318384000 by decide) rfl

theorem powA56 : avalancheStep^[2800] 3074032030 = 1922868032 :=
  iterChain powA55 (show avalancheStep^[50] 318384000 = 1922868032 by decide) rfl

theorem powA57 : avalancheStep^[2850] 3074032030 = 576783744 :=
  iterChain powA56 (show avalancheStep^[50] 1922868032 = 576783744 by decide) rfl

theorem powA58 : avalancheStep^[2900] 3074032030 = 4116877056 :=
  iterChain powA57 (show avalancheStep^[50] 576783744 = 4116877056 by decide) rfl

theorem powA59 : avalancheStep^[2950] 3074032030 = 3650464576 :=
  iterChain powA58 (show avalancheStep^[50] 4116877056 = 3650464576 by decide) rfl

theorem powA60 : avalancheStep^[3000] 3074032030 = 3161923648 :=
  iterChain powA59 (show avalancheStep^[50] 3650464576 = 3161923648 by decide) rfl

theorem powA61 : avalancheStep^[3050] 3074032030 = 479807232 :=
  iterChain powA60 (show avalancheStep^[50] 3161923648 = 479807232 by decide) rfl

theorem powA62 : avalancheStep^[3100] 3074032030 = 3038955392 :=
  iterChain powA61 (show avalancheStep^[50] 479807232 = 3038955392 by decide) rfl

theorem powA63 : avalancheStep^[3150] 3074032030 = 2071641856 :=
  iterChain powA62 (show avalancheStep^[50] 3038955392 = 2071641856 by decide) rfl

theorem powA64 : avalancheStep^[3200] 3074032030 = 744398720 :=
  iterChain powA63 (show avalancheStep^[50] 2071641856 = 744398720 by decide) rfl

theorem powA65 : avalancheStep^[3250] 3074032030 = 70000384 :=
  iterChain powA64 (show avalancheStep^[50] 744398720 = 70000384 by decide) rfl

theorem powA66 : avalancheStep^[3300] 3074032030 = 2344580608 :=
  iterChain powA65 (show avalancheStep^[50] 70000384 = 2344580608 by decide) rfl

theorem powA67 : avalancheStep^[3350] 3074032030 = 4132009216 :=
  iterChain powA66 (show avalancheStep^[50] 2344580608 = 4132009216 by decide) rfl

theorem powA68 : avalancheStep^[3400] 3074032030 = 1905676288 :=
  iterChain powA67 (show avalancheStep^[50] 4132009216 = 1905676288 by decide) rfl

theorem powA69 : avalancheStep^[3450] 3074032030 = 1999787072 :=
  iterChain powA68 (show avalancheStep^[50] 1905676288 = 1999787072 by decide) rfl

theorem powA70 : avalancheStep^[3500] 3074032030 = 3990579968 :=
  iterChain powA69 (show avalancheStep^[50] 1999787072 = 3990579968 by decide) rfl

theorem powA71 : avalancheStep^[3550] 3074032030 = 1906752000 :=
  iterChain powA70 (show avalancheStep^[50] 3990579968 = 1906752000 by decide) rfl

theorem powA72 : avalancheStep^[3600] 3074032030 = 4129714432 :=
  iterChain powA71 (show avalancheStep^[50] 1906752000 = 4129714432 by decide) rfl

theorem powA73 : avalancheStep^[3650] 3074032030 = 3539672576 :=
  iterChain powA72 (show avalancheStep^[50] 4129714432 = 3539672576 by decide) rfl

theorem powA74 : avalancheStep^[3700] 3074032030 = 971837440 :=
  iterChain powA73 (show avalancheStep^[50] 3539672576 = 971837440 by decide) rfl

theorem powA75 : avalancheStep^[3750] 3074032030 = 2552866816 :=
  iterChain powA74 (show avalancheStep^[50] 971837440 = 2552866816 by decide) rfl

theorem powA76 : avalancheStep^[3800] 3074032030 = 3937018112 :=
  iterChain powA75 (show avalancheStep^[50] 2552866816 = 3937018112 by decide) rfl

theorem powA77 : avalancheStep^[3850] 3074032030 = 939755520 :=
  iterChain powA76 (show avalancheStep^[50] 3937018112 = 939755520 by decide) rfl

theorem powA78 : avalancheStep^[3900] 3074032030 = 1434240000 :=
  iterChain powA77 (show avalancheStep^[50] 939755520 = 1434240000 by decide) rfl

theorem powA79 : avalancheStep^[3950] 3074032030 = 3320260608 :=
  iterChain powA78 (show avalancheStep^[50] 1434240000 = 3320260608 by decide) rfl

theorem powA80 : avalancheStep^[4000] 3074032030 = 3845122560 :=
  iterChain powA79 (show avalancheStep^[50] 3320260608 = 3845122560 by decide) rfl

theorem powA81 : avalancheStep^[4050] 3074032030 = 3275419456 :=
  iterChain powA80 (show avalancheStep^[50] 3845122560 = 3275419456 by decide) rfl

theorem powA82 : avalancheStep^[4100] 3074032030 = 3387534336 :=
  iterChain powA81 (show avalancheStep^[50] 3275419456 = 3387534336 by decide) rfl

theorem powA83 : avalancheStep^[4150] 3074032030 = 2460382016 :=
  iterChain powA82 (show avalancheStep^[50] 3387534336 = 2460382016 by decide) rfl

theorem powA84 : avalancheStep^[4200] 3074032030 = 1816719616 :=
  iterChain powA83 (show avalancheStep^[50] 2460382016 = 1816719616 by decide) rfl

theorem powA85 : avalancheStep^[4250] 3074032030 = 1882759424 :=
  iterChain powA84 (show avalancheStep^[50] 1816719616 = 1882759424 by decide) rfl

theorem powA86 : avalancheStep^[4300] 3074032030 = 132995072 :=
  iterChain powA85 (show avalancheStep^[50] 1882759424 = 132995072 by decide) rfl

theorem powA87 : avalancheStep^[4350] 3074032030 = 714399296 :=
  iterChain powA86 (show avalancheStep^[50] 132995072 = 714399296 by decide) rfl

theorem powA88 : avalancheStep^[4400] 3074032030 = 1104026624 :=
  iterChain powA87 (show avalancheStep^[50] 714399296 = 1104026624 by decide) rfl

theorem powA89 : avalancheStep^[4450] 3074032030 = 2207468288 :=
  iterChain powA88 (show avalancheStep^[50] 1104026624 = 2207468288 by decide) rfl

theorem powA90 : avalancheStep^[4500] 3074032030 = 2498655808 :=
  iterChain powA89 (show avalancheStep^[50] 2207468288 = 2498655808 by decide) rfl

theorem powA91 : avalancheStep^[4550] 3074032030 = 2418401280 :=
  iterChain powA90 (show avalancheStep^[50] 2498655808 = 2418401280 by decide) rfl

theorem powA92 : avalancheStep^[4600] 3074032030 = 1356108288 :=
  iterChain powA91 (show avalancheStep^[50] 2418401280 = 1356108288 by decide) rfl

theorem powA93 : avalancheStep^[4650] 3074032030 = 1840347648 :=
  iterChain powA92 (show avalancheStep^[50] 1356108288 = 1840347648 by decide) rfl

theorem powA94 : avalancheStep^[4700] 3074032030 = 1037290496 :=
  iterChain powA93 (show avalancheStep^[50] 1840347648 = 1037290496 by decide) rfl

theorem powA95 : avalancheStep^[4750] 3074032030 = 1780088320 :=
  iterChain powA94 (show avalancheStep^[50] 1037290496 = 1780088320 by decide) rfl

theorem powA96 : avalancheStep^[4800] 3074032030 = 3124126208 :=
  iterChain powA95 (show avalancheStep^[50] 1780088320 = 3124126208 by decide) rfl

theorem powA97 : avalancheStep^[4850] 3074032030 = 3284316672 :=
  iterChain powA96 (show avalancheStep^[50] 3124126208 = 3284316672 by decide) rfl

theorem powA98 : avalancheStep^[4900] 3074032030 = 556052544 :=
  iterChain powA97 (show avalancheStep^[50] 3284316672 = 556052544 by decide) rfl

theorem powA99 : avalancheStep^[4950] 3074032030 = 128901696 :=
  iterChain powA98 (show avalancheStep^[50] 556052544 = 128901696 by decide) rfl

theorem powA100 : avalancheStep^[5000] 3074032030 = 366565888 :=
  iterChain powA99 (show avalancheStep^[50] 128901696 = 366565888 by decide) rfl

theorem powA101 : avalancheStep^[5050] 3074032030 = 3308931840 :=
  iterChain powA100 (show avalancheStep^[50] 366565888 = 3308931840 by decide) rfl

theorem powA102 : avalancheStep^[5100] 3074032030 = 3868937216 :=
  iterChain powA101 (show avalancheStep^[50] 3308931840 = 3868937216 by decide) rfl

theorem powA103 : avalancheStep^[5150] 3074032030 = 3784645120 :=
  iterChain powA102 (show avalancheStep^[50] 3868937216 = 3784645120 by decide) rfl

theorem powA104 : avalancheStep^[5200] 3074032030 = 83804160 :=
  iterChain powA103 (show avalancheStep^[50] 3784645120 = 83804160 by decide) rfl

theorem powA105 : avalancheStep^[5250] 3074032030 = 1674730240 :=
  iterChain powA104 (show avalancheStep^[50] 83804160 = 1674730240 by decide) rfl

theorem powA106 : avalancheStep^[5300] 3074032030 = 4017711872 :=
  iterChain powA105 (show avalancheStep^[50] 1674730240 = 4017711872 by decide) rfl

theorem powA107 : avalancheStep^[5350] 3074032030 = 3166253824 :=
  iterChain powA106 (show avalancheStep^[50] 4017711872 = 3166253824 by decide) rfl

theorem powA108 : avalancheStep^[5400] 3074032030 = 1968743936 :=
  iterChain powA107 (show avalancheStep^[50] 3166253824 = 1968743936 by decide) rfl

theorem powA109 : avalancheStep^[5450] 3074032030 = 1799126016 :=
  iterChain powA108 (show avalancheStep^[50] 1968743936 = 1799126016 by decide) rfl

theorem powA110 : avalancheStep^[5500] 3074032030 = 2834106368 :=
  iterChain powA109 (show avalancheStep^[50] 1799126016 = 2834106368 by decide) rfl

theorem powA111 : avalancheStep^[5550] 3074032030 = 995211520 :=
  iterChain powA110 (show avalancheStep^[50] 2834106368 = 995211520 by decide) rfl

theorem powA112 : avalancheStep^[5600] 3074032030 = 1589682688 :=
  iterChain powA111 (show avalancheStep^[50] 995211520 = 1589682688 by decide) rfl

theorem powA113 : avalancheStep^[5650] 3074032030 = 2841669376 :=
  iterChain powA112 (show avalancheStep^[50] 1589682688 = 2841669376 by decide) rfl

theorem powA114 : avalancheStep^[5700] 3074032030 = 1073003008 :=
  iterChain powA113 (show avalancheStep^[50] 2841669376 = 1073003008 by decide) rfl

theorem powA115 : avalancheStep^[5750] 3074032030 = 131498560 :=
  iterChain powA114 (show avalancheStep^[50] 1073003008 = 131498560 by decide) rfl

theorem powA116 : avalancheStep^[5800] 3074032030 = 1949240320 :=
  iterChain powA115 (show avalancheStep^[50] 131498560 = 1949240320 by decide) rfl

theorem powA117 : avalancheStep^[5850] 3074032030 = 1227316736 :=
  iterChain powA116 (show avalancheStep^[50] 1949240320 = 1227316736 by decide) rfl

theorem powA118 : avalancheStep^[5900] 3074032030 = 4195134464 :=
  iterChain powA117 (show avalancheStep^[50] 1227316736 = 4195134464 by decide) rfl

theorem powA119 : avalancheStep^[5950] 3074032030 = 1103756864 :=
  iterChain powA118 (show avalancheStep^[50] 4195134464 = 1103756864 by decide) rfl

theorem powA120 : avalancheStep^[6000] 3074032030 = 1033378304 :=
  iterChain powA119 (show avalancheStep^[50] 1103756864 = 1033378304 by decide) rfl

theorem powA121 : avalancheStep^[6050] 3074032030 = 4030934272 :=
  iterChain powA120 (show avalancheStep^[50] 1033378304 = 4030934272 by decide) rfl

theorem powA122 : avalancheStep^[6100] 3074032030 = 262659072 :=
  iterChain powA121 (show avalancheStep^[50] 4030934272 = 262659072 by decide) rfl

theorem powA123 : avalancheStep^[6150] 3074032030 = 3879056640 :=
  iterChain powA122 (show avalancheStep^[50] 262659072 = 3879056640 by decide) rfl

theorem powA124 : avalancheStep^[6200] 3074032030 = 2649306624 :=
  iterChain powA123 (show avalancheStep^[50] 3879056640 = 2649306624 by decide) rfl

theorem powA125 : avalancheStep^[6250] 3074032030 = 2773602304 :=
  iterChain powA124 (show avalancheStep^[50] 2649306624 = 2773602304 by decide) rfl

theorem powA126 : avalancheStep^[6300] 3074032030 = 1768744960 :=
  iterChain powA125 (show avalancheStep^[50] 2773602304 = 1768744960 by decide) rfl

theorem powA127 : avalancheStep^[6350] 3074032030 = 4043853824 :=
  iterChain powA126 (show avalancheStep^[50] 1768744960 = 4043853824 by decide) rfl

theorem powA128 : avalancheStep^[6400] 3074032030 = 2182127936 :=
  iterChain powA127 (show avalancheStep^[50] 4043853824 = 2182127936 by decide) rfl

theorem powA129 : avalancheStep^[6450] 3074032030 = 2101669888 :=
  iterChain powA128 (show avalancheStep^[50] 2182127936 = 2101669888 by decide) rfl

theorem powA130 : avalancheStep^[6500] 3074032030 = 622245120 :=
  iterChain powA129 (show avalancheStep^[50] 2101669888 = 622245120 by decide) rfl

theorem powA131 : avalancheStep^[6550] 3074032030 = 4125946368 :=
  iterChain powA130 (show avalancheStep^[50] 622245120 = 4125946368 by decide) rfl

theorem powA132 : avalancheStep^[6600] 3074032030 = 2204050176 :=
  iterChain powA131 (show avalancheStep^[50] 4125946368 = 2204050176 by decide) rfl

theorem powA133 : avalancheStep^[6650] 3074032030 = 3763684608 :=
  iterChain powA132 (show avalancheStep^[50] 2204050176 = 3763684608 by decide) rfl

theorem powA134 : avalancheStep^[6700] 3074032030 = 1540571648 :=
  iterChain powA133 (show avalancheStep^[50] 3763684608 = 1540571648 by decide) rfl

theorem powA135 : avalancheStep^[6750] 3074032030 = 1507107840 :=
  iterChain powA134 (show avalancheStep^[50] 1540571648 = 1507107840 by decide) rfl

theorem powA136 : avalancheStep^[6800] 3074032030 = 3589128960 :=
  iterChain powA135 (show avalancheStep^[50] 1507107840 = 3589128960 by decide) rfl

theorem powA137 : avalancheStep^[6850] 3074032030 = 1883390528 :=
  iterChain powA136 (show avalancheStep^[50] 3589128960 = 1883390528 by decide) rfl

theorem powA138 : avalancheStep^[6900] 3074032030 = 1663961088 :=
  iterChain powA137 (show avalancheStep^[50] 1883390528 = 1663961088 by decide) rfl

theorem powA139 : avalancheStep^[6950] 3074032030 = 1721121792 :=
  iterChain powA138 (show avalancheStep^[50] 1663961088 = 1721121792 by decide) rfl

theorem powA140 : avalancheStep^[7000] 3074032030 = 555781632 :=
  iterChain powA139 (show avalancheStep^[50] 1721121792 = 555781632 by decide) rfl

theorem powA141 : avalancheStep^[7050] 3074032030 = 2794888192 :=
  iterChain powA140 (show avalancheStep^[50] 555781632 = 2794888192 by decide) rfl

theorem powA142 : avalancheStep^[7100] 3074032030 = 3153608256 :=
  iterChain powA141 (show avalancheStep^[50] 2794888192 = 3153608256 by decide) rfl

theorem powA143 : avalancheStep^[7150] 3074032030 = 3670686976 :=
  iterChain powA142 (show avalancheStep^[50] 3153608256 = 3670686976 by decide) rfl

theorem powA144 : avalancheStep^[7200] 3074032030 = 1169921536 :=
  iterChain powA143 (show avalancheStep^[50] 3670686976 = 1169921536 by decide) rfl

theorem powA145 : avalancheStep^[7250] 3074032030 = 1166774912 :=
  iterChain powA144 (show avalancheStep^[50] 1169921536 = 1166774912 by decide) rfl

theorem powA146 : avalancheStep^[7300] 3074032030 = 2726808896 :=
  iterChain powA145 (show avalancheStep^[50] 1166774912 = 2726808896 by decide) rfl

theorem powA147 : avalancheStep^[7350] 3074032030 = 603661376 :=
  iterChain powA146 (show avalancheStep^[50] 2726808896 = 603661376 by decide) rfl

theorem powA148 : avalancheStep^[7400] 3074032030 = 3313294912 :=
  iterChain powA147 (show avalancheStep^[50] 603661376 = 3313294912 by decide) rfl

theorem powA149 : avalancheStep^[7450] 3074032030 = 3731471872 :=
  iterChain powA148 (show avalancheStep^[50] 3313294912 = 3731471872 by decide) rfl

theorem powA150 : avalancheStep^[7500] 3074032030 = 4150980536 :=
  iterChain powA149 (show avalancheStep^[50] 3731471872 = 4150980536 by decide) rfl

theorem powA151 : avalancheStep^[7550] 3074032030 = 1720380800 :=
  iterChain powA150 (show avalancheStep^[50] 4150980536 = 1720380800 by decide) rfl

theorem powA152 : avalancheStep^[7600] 3074032030 = 519909952 :=
  iterChain powA151 (show avalancheStep^[50] 1720380800 = 519909952 by decide) rfl

theorem powA153 : avalancheStep^[7650] 3074032030 = 2920647488 :=
  iterChain powA152 (show avalancheStep^[50] 519909952 = 2920647488 by decide) rfl

theorem powA154 : avalancheStep^[7700] 3074032030 = 1835603712 :=
  iterChain powA153 (show avalancheStep^[50] 2920647488 = 1835603712 by decide) rfl

theorem powA155 : avalancheStep^[7750] 3074032030 = 498729344 :=
  iterChain powA154 (show avalancheStep^[50] 1835603712 = 498729344 by decide) rfl

theorem powA156 : avalancheStep^[7800] 3074032030 = 611806720 :=
  iterChain powA155 (show avalancheStep^[50] 498729344 = 611806720 by decide) rfl

theorem powA157 : avalancheStep^[7850] 3074032030 = 3160125696 :=
  iterChain powA156 (show avalancheStep^[50] 611806720 = 3160125696 by decide) rfl

theorem powA158 : avalancheStep^[7900] 3074032030 = 3947762176 :=
  iterChain powA157 (show avalancheStep^[50] 3160125696 = 3947762176 by decide) rfl

theorem powA159 : avalancheStep^[7950] 3074032030 = 3488515648 :=
  iterChain powA158 (show avalancheStep^[50] 3947762176 = 3488515648 by decide) rfl

theorem powA160 : avalancheStep^[8000] 3074032030 = 774533632 :=
  iterChain powA159 (show avalancheStep^[50] 3488515648 = 774533632 by decide) rfl

theorem powA161 : avalancheStep^[8050] 3074032030 = 2977564416 :=
  iterChain powA160 (show avalancheStep^[50] 774533632 = 2977564416 by decide) rfl

theorem powA162 : avalancheStep^[8100] 3074032030 = 1709448832 :=
  iterChain powA161 (show avalancheStep^[50] 2977564416 = 1709448832 by decide) rfl

theorem powA163 : avalancheStep^[8150] 3074032030 = 3589316672 :=
  iterChain powA162 (show avalancheStep^[50] 1709448832 = 3589316672 by decide) rfl

theorem powA164 : avalancheStep^[8200] 3074032030 = 3704861440 :=
  iterChain powA163 (show avalancheStep^[50] 3589316672 = 3704861440 by decide) rfl

theorem powA165 : avalancheStep^[8250] 3074032030 = 2088247104 :=
  iterChain powA164 (show avalancheStep^[50] 3704861440 = 2088247104 by decide) rfl

theorem powA166 : avalancheStep^[8300] 3074032030 = 2507475968 :=
  iterChain powA165 (show avalancheStep^[50] 2088247104 = 2507475968 by decide) rfl

theorem powA167 : avalancheStep^[8350] 3074032030 = 702574080 :=
  iterChain powA166 (show avalancheStep^[50] 2507475968 = 702574080 by decide) rfl

theorem powA168 : avalancheStep^[8400] 3074032030 = 2086946560 :=
  iterChain powA167 (show avalancheStep^[50] 702574080 = 2086946560 by decide) rfl

theorem powA169 : avalancheStep^[8450] 3074032030 = 4021521408 :=
  iterChain powA168 (show avalancheStep^[50] 2086946560 = 4021521408 by decide) rfl

theorem powA170 : avalancheStep^[8500] 3074032030 = 3075701504 :=
  iterChain powA169 (show avalancheStep^[50] 4021521408 = 3075701504 by decide) rfl

theorem powA171 : avalancheStep^[8550] 3074032030 = 2349066240 :=
  iterChain powA170 (show avalancheStep^[50] 3075701504 = 2349066240 by decide) rfl

theorem powA172 : avalancheStep^[8600] 3074032030 = 1865837824 :=
  iterChain powA171 (show avalancheStep^[50] 2349066240 = 1865837824 by decide) rfl

theorem powA173 : avalancheStep^[8650] 3074032030 = 300748544 :=
  iterChain powA172 (show avalancheStep^[50] 1865837824 = 300748544 by decide) rfl

theorem powA174 : avalancheStep^[8700] 3074032030 = 3254752256 :=
  iterChain powA173 (show avalancheStep^[50] 300748544 = 3254752256 by decide) rfl

theorem powA175 : avalancheStep^[8750] 3074032030 = 2923588032 :=
  iterChain powA174 (show avalancheStep^[50] 3254752256 = 2923588032 by decide) rfl

theorem powA176 : avalancheStep^[8800] 3074032030 = 4210643712 :=
  iterChain powA175 (show avalancheStep^[50] 2923588032 = 4210643712 by decide) rfl

theorem powA177 : avalancheStep^[8850] 3074032030 = 30983168 :=
  iterChain powA176 (show avalancheStep^[50] 4210643712 = 30983168 by decide) rfl

theorem powA178 : avalancheStep^[8900] 3074032030 = 3584513280 :=
  iterChain powA177 (show avalancheStep^[50] 30983168 = 3584513280 by decide) rfl

theorem powA179 : avalancheStep^[8950] 3074032030 = 1718393920 :=
  iterChain powA178 (show avalancheStep^[50] 3584513280 = 1718393920 by decide) rfl

theorem powA180 : avalancheStep^[9000] 3074032030 = 186721344 :=
  iterChain powA179 (show avalancheStep^[50] 1718393920 = 186721344 by decide) rfl

theorem powA181 : avalancheStep^[9050] 3074032030 = 1528602368 :=
  iterChain powA180 (show avalancheStep^[50] 186721344 = 1528602368 by decide) rfl

theorem powA182 : avalancheStep^[9100] 3074032030 = 3086749952 :=
  iterChain powA181 (show avalancheStep^[50] 1528602368 = 3086749952 by decide) rfl

theorem powA183 : avalancheStep^[9150] 3074032030 = 449950208 :=
  iterChain powA182 (show avalancheStep^[50] 3086749952 = 449950208 by decide) rfl

theorem powA184 : avalancheStep^[9200] 3074032030 = 2151961600 :=
  iterChain powA183 (show avalancheStep^[50] 449950208 = 2151961600 by decide) rfl

theorem powA185 : avalancheStep^[9250] 3074032030 = 2496352000 :=
  iterChain powA184 (show avalancheStep^[50] 2151961600 = 2496352000 by decide) rfl

theorem powA186 : avalancheStep^[9300] 3074032030 = 373990912 :=
  iterChain powA185 (show avalancheStep^[50] 2496352000 = 373990912 by decide) rfl

theorem powA187 : avalancheStep^[9350] 3074032030 = 849691904 :=
  iterChain powA186 (show avalancheStep^[50] 373990912 = 849691904 by decide) rfl

theorem powA188 : avalancheStep^[9400] 3074032030 = 3454637568 :=
  iterChain powA187 (show avalancheStep^[50] 849691904 = 3454637568 by decide) rfl

theorem powA189 : avalancheStep^[9450] 3074032030 = 3478910976 :=
  iterChain powA188 (show avalancheStep^[50] 3454637568 = 3478910976 by decide) rfl

theorem powA190 : avalancheStep^[9500] 3074032030 = 139394816 :=
  iterChain powA189 (show avalancheStep^[50] 3478910976 = 139394816 by decide) rfl

theorem powA191 : avalancheStep^[9550] 3074032030 = 2070650176 :=
  iterChain powA190 (show avalancheStep^[50] 139394816 = 2070650176 by decide) rfl

theorem powA192 : avalancheStep^[9600] 3074032030 = 4251583232 :=
  iterChain powA191 (show avalancheStep^[50] 2070650176 = 4251583232 by decide) rfl

theorem powA193 : avalancheStep^[9650] 3074032030 = 2546237504 :=
  iterChain powA192 (show avalancheStep^[50] 4251583232 = 2546237504 by decide) rfl

theorem powA194 : avalancheStep^[9700] 3074032030 = 4130496000 :=
  iterChain powA193 (show avalancheStep^[50] 2546237504 = 4130496000 by decide) rfl

theorem powA195 : avalancheStep^[9750] 3074032030 = 4019184384 :=
  iterChain powA194 (show avalancheStep^[50] 4130496000 = 4019184384 by decide) rfl

theorem powA196 : avalancheStep^[9800] 3074032030 = 2313912320 :=
  iterChain powA195 (show avalancheStep^[50] 4019184384 = 2313912320 by decide) rfl

theorem powA197 : avalancheStep^[9850] 3074032030 = 3285364736 :=
  iterChain powA196 (show avalancheStep^[50] 2313912320 = 3285364736 by decide) rfl

theorem powA198 : avalancheStep^[9900] 3074032030 = 1659633664 :=
  iterChain powA197 (show avalancheStep^[50] 3285364736 = 1659633664 by decide) rfl

theorem powA199 : avalancheStep^[9950] 3074032030 = 2140058368 :=
  iterChain powA198 (show avalancheStep^[50] 1659633664 = 2140058368 by decide) rfl

theorem powA200 : avalancheStep^[10000] 3074032030 = 3000603136 :=
  iterChain powA199 (show avalancheStep^[50] 2140058368 = 3000603136 by decide) rfl

theorem powB1 : avalancheStep^[50] 3074032031 = 3578311168 := by decide

theorem powB2 : avalancheStep^[100] 3074032031 = 1916055808 :=
  iterChain powB1 (show avalancheStep^[50] 3578311168 = 1916055808 by decide) rfl

theorem powB3 : avalancheStep^[150] 3074032031 = 739614776 :=
  iterChain powB2 (show avalancheStep^[50] 1916055808 = 739614776 by decide) rfl

theorem powB4 : avalancheStep^[200] 3074032031 = 3673931008 :=
  iterChain powB3 (show avalancheStep^[50] 739614776 = 3673931008 by decide) rfl

theorem powB5 : avalancheStep^[250] 3074032031 = 3528264056 :=
  iterChain powB4 (show avalancheStep^[50] 3673931008 = 3528264056 by decide) rfl

theorem powB6 : avalancheStep^[300] 3074032031 = 914742272 :=
  iterChain powB5 (show avalancheStep^[50] 3528264056 = 914742272 by decide) rfl

theorem powB7 : avalancheStep^[350] 3074032031 = 868747520 :=
  iterChain powB6 (show avalancheStep^[50] 914742272 = 868747520 by decide) rfl

theorem powB8 : avalancheStep^[400] 3074032031 = 298718016 :=
  iterChain powB7 (show avalancheStep^[50] 868747520 = 298718016 by decide) rfl

theorem powB9 : avalancheStep^[450] 3074032031 = 1577177856 :=
  iterChain powB8 (show avalancheStep^[50] 298718016 = 1577177856 by decide) rfl

theorem powB10 : avalancheStep^[500] 3074032031 = 3956421376 :=
  iterChain powB9 (show avalancheStep^[50] 1577177856 = 3956421376 by decide) rfl

theorem powB11 : avalancheStep^[550] 3074032031 = 2444800 :=
  iterChain powB10 (show avalancheStep^[50] 3956421376 = 2444800 by decide) rfl

theorem powB12 : avalancheStep^[600] 3074032031 = 2496248896 :=
  iterChain powB11 (show avalancheStep^[50] 2444800 = 2496248896 by decide) rfl

theorem powB13 : avalancheStep^[650] 3074032031 = 3079994624 :=
  iterChain powB12 (show avalancheStep^[50] 2496248896 = 3079994624 by decide) rfl

theorem powB14 : avalancheStep^[700] 3074032031 = 42856192 :=
  iterChain powB13 (show avalancheStep^[50] 3079994624 = 42856192 by decide) rfl

theorem powB15 : avalancheStep^[750] 3074032031 = 1178164736 :=
  iterChain powB14 (show avalancheStep^[50] 42856192 = 1178164736 by decide) rfl

theorem powB16 : avalancheStep^[800] 3074032031 = 173578496 :=
  iterChain powB15 (show avalancheStep^[50] 1178164736 = 173578496 by decide) rfl

theorem powB17 : avalancheStep^[850] 3074032031 = 3159768576 :=
  iterChain powB16 (show avalancheStep^[50] 173578496 = 3159768576 by decide) rfl

theorem powB18 : avalancheStep^[900] 3074032031 = 3617437760 :=
  iterChain powB17 (show avalancheStep^[50] 3159768576 = 3617437760 by decide) rfl

theorem powB19 : avalancheStep^[950] 3074032031 = 3625666304 :=
  iterChain powB18 (show avalancheStep^[50] 3617437760 = 3625666304 by decide) rfl

theorem powB20 : avalancheStep^[1000] 3074032031 = 2820566784 :=
  iterChain powB19 (show avalancheStep^[50] 3625666304 = 2820566784 by decide) rfl

theorem powB21 : avalancheStep^[1050] 3074032031 = 3302591744 :=
  iterChain powB20 (show avalancheStep^[50] 2820566784 = 3302591744 by decide) rfl

theorem powB22 : avalancheStep^[1100] 3074032031 = 2982358016 :=
  iterChain powB21 (show avalancheStep^[50] 3302591744 = 2982358016 by decide) rfl

theorem powB23 : avalancheStep^[1150] 3074032031 = 1544282112 :=
  iterChain powB22 (show avalancheStep^[50] 2982358016 = 1544282112 by decide) rfl

theorem powB24 : avalancheStep^[1200] 3074032031 = 1722351616 :=
  iterChain powB23 (show avalancheStep^[50] 1544282112 = 1722351616 by decide) rfl

theorem powB25 : avalancheStep^[1250] 3074032031 = 89330944 :=
  iterChain powB24 (show avalancheStep^[50] 1722351616 = 89330944 by decide) rfl

theorem powB26 : avalancheStep^[1300] 3074032031 = 832209984 :=
  iterChain powB25 (show avalancheStep^[50] 89330944 = 832209984 by decide) rfl

theorem powB27 : avalancheStep^[1350] 3074032031 = 4179156288 :=
  iterChain powB26 (show avalancheStep^[50] 832209984 = 4179156288 by decide) rfl

theorem powB28 : avalancheStep^[1400] 3074032031 = 3696985088 :=
  iterChain powB27 (show avalancheStep^[50] 4179156288 = 3696985088 by decide) rfl

theorem powB29 : avalancheStep^[1450] 3074032031 = 736642048 :=
  iterChain powB28 (show avalancheStep^[50] 3696985088 = 736642048 by decide) rfl

theorem powB30 : avalancheStep^[1500] 3074032031 = 989041152 :=
  iterChain powB29 (show avalancheStep^[50] 736642048 = 989041152 by decide) rfl

theorem powB31 : avalancheStep^[1550] 3074032031 = 1318163456 :=
  iterChain powB30 (show avalancheStep^[50] 989041152 = 1318163456 by decide) rfl

theorem powB32 : avalancheStep^[1600] 3074032031 = 756922112 :=
  iterChain powB31 (show avalancheStep^[50] 1318163456 = 756922112 by decide) rfl

theorem powB33 : avalancheStep^[1650] 3074032031 = 54415936 :=
  iterChain powB32 (show avalancheStep^[50] 756922112 = 54415936 by decide) rfl

theorem powB34 : avalancheStep^[1700] 3074032031 = 301738240 :=
  iterChain powB33 (show avalancheStep^[50] 54415936 = 301738240 by decide) rfl

theorem powB35 : avalancheStep^[1750] 3074032031 = 2646714112 :=
  iterChain powB34 (show avalancheStep^[50] 301738240 = 2646714112 by decide) rfl

theorem powB36 : avalancheStep^[1800] 3074032031 = 138245120 :=
  iterChain powB35 (show avalancheStep^[50] 2646714112 = 138245120 by decide) rfl

theorem powB37 : avalancheStep^[1850] 3074032031 = 1072950272 :=
  iterChain powB36 (show avalancheStep^[50] 138245120 = 1072950272 by decide) rfl

theorem powB38 : avalancheStep^[1900] 3074032031 = 515337472 :=
  iterChain powB37 (show avalancheStep^[50] 1072950272 = 515337472 by decide) rfl

theorem powB39 : avalancheStep^[1950] 3074032031 = 535774208 :=
  iterChain powB38 (show avalancheStep^[50] 515337472 = 535774208 by decide) rfl

theorem powB40 : avalancheStep^[2000] 3074032031 = 945575424 :=
  iterChain powB39 (show avalancheStep^[50] 535774208 = 945575424 by decide) rfl

theorem powB41 : avalancheStep^[2050] 3074032031 = 765879296 :=
  iterChain powB40 (show avalancheStep^[50] 945575424 = 765879296 by decide) rfl

theorem powB42 : avalancheStep^[2100] 3074032031 = 440204864 :=
  iterChain powB41 (show avalancheStep^[50] 765879296 = 440204864 by decide) rfl

theorem powB43 : avalancheStep^[2150] 3074032031 = 3698821632 :=
  iterChain powB42 (show avalancheStep^[50] 440204864 = 3698821632 by decide) rfl

theorem powB44 : avalancheStep^[2200] 3074032031 = 1807420928 :=
  iterChain powB43 (show avalancheStep^[50] 3698821632 = 1807420928 by decide) rfl

theorem powB45 : avalancheStep^[2250] 3074032031 = 2626350848 :=
  iterChain powB44 (show avalancheStep^[50] 1807420928 = 2626350848 by decide) rfl

theorem powB46 : avalancheStep^[2300] 3074032031 = 4126530048 :=
  iterChain powB45 (show avalancheStep^[50] 2626350848 = 4126530048 by decide) rfl

theorem powB47 : avalancheStep^[2350] 3074032031 = 3504224256 :=
  iterChain powB46 (show avalancheStep^[50] 4126530048 = 3504224256 by decide) rfl

theorem powB48 : avalancheStep^[2400] 3074032031 = 3665013760 :=
  iterChain powB47 (show avalancheStep^[50] 3504224256 = 3665013760 by decide) rfl

theorem powB49 : avalancheStep^[2450] 3074032031 = 1273954560 :=
  iterChain powB48 (show avalancheStep^[50] 3665013760 = 1273954560 by decide) rfl

theorem powB50 : avalancheStep^[2500] 3074032031 = 360432064 :=
  iterChain powB49 (show avalancheStep^[50] 1273954560 = 360432064 by decide) rfl

theorem powB51 : avalancheStep^[2550] 3074032031 = 3386655232 :=
  iterChain powB50 (show avalancheStep^[50] 360432064 = 3386655232 by decide) rfl

theorem powB52 : avalancheStep^[2600] 3074032031 = 3314351872 :=
  iterChain powB51 (show avalancheStep^[50] 3386655232 = 3314351872 by decide) rfl

theorem powB53 : avalancheStep^[2650] 3074032031 = 4154213888 :=
  iterChain powB52 (show avalancheStep^[50] 3314351872 = 4154213888 by decide) rfl

theorem powB54 : avalancheStep^[2700] 3074032031 = 3692142400 :=
  iterChain powB53 (show avalancheStep^[50] 4154213888 = 3692142400 by decide) rfl

theorem powB55 : avalancheStep^[2750] 3074032031 = 1969913344 :=
  iterChain powB54 (show avalancheStep^[50] 3692142400 = 1969913344 by decide) rfl

theorem powB56 : avalancheStep^[2800] 3074032031 = 3536758912 :=
  iterChain powB55 (show avalancheStep^[50] 1969913344 = 3536758912 by decide) rfl

theorem powB57 : avalancheStep^[2850] 3074032031 = 1791037504 :=
  iterChain powB56 (show avalancheStep^[50] 3536758912 = 1791037504 by decide) rfl

theorem powB58 : avalancheStep^[2900] 3074032031 = 1998992896 :=
  iterChain powB57 (show avalancheStep^[50] 1791037504 = 1998992896 by decide) rfl

theorem powB59 : avalancheStep^[2950] 3074032031 = 3070642688 :=
  iterChain powB58 (show avalancheStep^[50] 1998992896 = 3070642688 by decide) rfl

theorem powB60 : avalancheStep^[3000] 3074032031 = 439854848 :=
  iterChain powB59 (show avalancheStep^[50] 3070642688 = 439854848 by decide) rfl

theorem powB61 : avalancheStep^[3050] 3074032031 = 3017420288 :=
  iterChain powB60 (show avalancheStep^[50] 439854848 = 3017420288 by decide) rfl

theorem powB62 : avalancheStep^[3100] 3074032031 = 1943928640 :=
  iterChain powB61 (show avalancheStep^[50] 3017420288 = 1943928640 by decide) rfl

theorem powB63 : avalancheStep^[3150] 3074032031 = 3928656704 :=
  iterChain powB62 (show avalancheStep^[50] 1943928640 = 3928656704 by decide) rfl

theorem powB64 : avalancheStep^[3200] 3074032031 = 3786090496 :=
  iterChain powB63 (show avalancheStep^[50] 3928656704 = 3786090496 by decide) rfl

theorem powB65 : avalancheStep^[3250] 3074032031 = 3155547136 :=
  iterChain powB64 (show avalancheStep^[50] 3786090496 = 3155547136 by decide) rfl

theorem powB66 : avalancheStep^[3300] 3074032031 = 728732480 :=
  iterChain powB65 (show avalancheStep^[50] 3155547136 = 728732480 by decide) rfl

theorem powB67 : avalancheStep^[3350] 3074032031 = 384958720 :=
  iterChain powB66 (show avalancheStep^[50] 728732480 = 384958720 by decide) rfl

theorem powB68 : avalancheStep^[3400] 3074032031 = 1113226752 :=
  iterChain powB67 (show avalancheStep^[50] 384958720 = 1113226752 by decide) rfl

theorem powB69 : avalancheStep^[3450] 3074032031 = 712481344 :=
  iterChain powB68 (show avalancheStep^[50] 1113226752 = 712481344 by decide) rfl

theorem powB70 : avalancheStep^[3500] 3074032031 = 4197528832 :=
  iterChain powB69 (show avalancheStep^[50] 712481344 = 4197528832 by decide) rfl

theorem powB71 : avalancheStep^[3550] 3074032031 = 2792076288 :=
  iterChain powB70 (show avalancheStep^[50] 4197528832 = 2792076288 by decide) rfl

theorem powB72 : avalancheStep^[3600] 3074032031 = 2797458432 :=
  iterChain powB71 (show avalancheStep^[50] 2792076288 = 2797458432 by decide) rfl

theorem powB73 : avalancheStep^[3650] 3074032031 = 3679722560 :=
  iterChain powB72 (show avalancheStep^[50] 2797458432 = 3679722560 by decide) rfl

theorem powB74 : avalancheStep^[3700] 3074032031 = 3687475840 :=
  iterChain powB73 (show avalancheStep^[50] 3679722560 = 3687475840 by decide) rfl

theorem powB75 : avalancheStep^[3750] 3074032031 = 4211907328 :=
  iterChain powB74 (show avalancheStep^[50] 3687475840 = 4211907328 by decide) rfl

theorem powB76 : avalancheStep^[3800] 3074032031 = 3591836416 :=
  iterChain powB75 (show avalancheStep^[50] 4211907328 = 3591836416 by decide) rfl

theorem powB77 : avalancheStep^[3850] 3074032031 = 2122544128 :=
  iterChain powB76 (show avalancheStep^[50] 3591836416 = 2122544128 by decide) rfl

theorem powB78 : avalancheStep^[3900] 3074032031 = 1990315008 :=
  iterChain powB77 (show avalancheStep^[50] 2122544128 = 1990315008 by decide) rfl

theorem powB79 : avalancheStep^[3950] 3074032031 = 726675456 :=
  iterChain powB78 (show avalancheStep^[50] 1990315008 = 726675456 by decide) rfl

theorem powB80 : avalancheStep^[4000] 3074032031 = 2857494848 :=
  iterChain powB79 (show avalancheStep^[50] 726675456 = 2857494848 by decide) rfl

theorem powB81 : avalancheStep^[4050] 3074032031 = 2341442432 :=
  iterChain powB80 (show avalancheStep^[50] 2857494848 = 2341442432 by decide) rfl

theorem powB82 : avalancheStep^[4100] 3074032031 = 3248488448 :=
  iterChain powB81 (show avalancheStep^[50] 2341442432 = 3248488448 by decide) rfl

theorem powB83 : avalancheStep^[4150] 3074032031 = 701647872 :=
  iterChain powB82 (show avalancheStep^[50] 3248488448 = 701647872 by decide) rfl

theorem powB84 : avalancheStep^[4200] 3074032031 = 696925696 :=
  iterChain powB83 (show avalancheStep^[50] 701647872 = 696925696 by decide) rfl

theorem powB85 : avalancheStep^[4250] 3074032031 = 1055630592 :=
  iterChain powB84 (show avalancheStep^[50] 696925696 = 1055630592 by decide) rfl

theorem powB86 : avalancheStep^[4300] 3074032031 = 1057132800 :=
  iterChain powB85 (show avalancheStep^[50] 1055630592 = 1057132800 by decide) rfl

theorem powB87 : avalancheStep^[4350] 3074032031 = 1875522432 :=
  iterChain powB86 (show avalancheStep^[50] 1057132800 = 1875522432 by decide) rfl

theorem powB88 : avalancheStep^[4400] 3074032031 = 1698017280 :=
  iterChain powB87 (show avalancheStep^[50] 1875522432 = 1698017280 by decide) rfl

theorem powB89 : avalancheStep^[4450] 3074032031 = 4275612928 :=
  iterChain powB88 (show avalancheStep^[50] 1698017280 = 4275612928 by decide) rfl

theorem powB90 : avalancheStep^[4500] 3074032031 = 2463100480 :=
  iterChain powB89 (show avalancheStep^[50] 4275612928 = 2463100480 by decide) rfl

theorem powB91 : avalancheStep^[4550] 3074032031 = 562885888 :=
  iterChain powB90 (show avalancheStep^[50] 2463100480 = 562885888 by decide) rfl

theorem powB92 : avalancheStep^[4600] 3074032031 = 3985021696 :=
  iterChain powB91 (show avalancheStep^[50] 562885888 = 3985021696 by decide) rfl

theorem powB93 : avalancheStep^[4650] 3074032031 = 2274324480 :=
  iterChain powB92 (show avalancheStep^[50] 3985021696 = 2274324480 by decide) rfl

theorem powB94 : avalancheStep^[4700] 3074032031 = 4154264064 :=
  iterChain powB93 (show avalancheStep^[50] 2274324480 = 4154264064 by decide) rfl

theorem powB95 : avalancheStep^[4750] 3074032031 = 3885594496 :=
  iterChain powB94 (show avalancheStep^[50] 4154264064 = 3885594496 by decide) rfl

theorem powB96 : avalancheStep^[4800] 3074032031 = 505957120 :=
  iterChain powB95 (show avalancheStep^[50] 3885594496 = 505957120 by decide) rfl

theorem powB97 : avalancheStep^[4850] 3074032031 = 3137599488 :=
  iterChain powB96 (show avalancheStep^[50] 505957120 = 3137599488 by decide) rfl

theorem powB98 : avalancheStep^[4900] 3074032031 = 3373670464 :=
  iterChain powB97 (show avalancheStep^[50] 3137599488 = 3373670464 by decide) rfl

theorem powB99 : avalancheStep^[4950] 3074032031 = 2285254656 :=
  iterChain powB98 (show avalancheStep^[50] 3373670464 = 2285254656 by decide) rfl

theorem powB100 : avalancheStep^[5000] 3074032031 = 2064137472 :=
  iterChain powB99 (show avalancheStep^[50] 2285254656 = 2064137472 by decide) rfl

theorem powB101 : avalancheStep^[5050] 3074032031 = 3371195904 :=
  iterChain powB100 (show avalancheStep^[50] 2064137472 = 3371195904 by decide) rfl

theorem powB102 : avalancheStep^[5100] 3074032031 = 361382912 :=
  iterChain powB101 (show avalancheStep^[50] 3371195904 = 361382912 by decide) rfl

theorem powB103 : avalancheStep^[5150] 3074032031 = 3634060096 :=
  iterChain powB102 (show avalancheStep^[50] 361382912 = 3634060096 by decide) rfl

theorem powB104 : avalancheStep^[5200] 3074032031 = 2441669248 :=
  iterChain powB103 (show avalancheStep^[50] 3634060096 = 2441669248 by decide) rfl

theorem powB105 : avalancheStep^[5250] 3074032031 = 1605288448 :=
  iterChain powB104 (show avalancheStep^[50] 2441669248 = 1605288448 by decide) rfl

theorem powB106 : avalancheStep^[5300] 3074032031 = 2098006528 :=
  iterChain powB105 (show avalancheStep^[50] 1605288448 = 2098006528 by decide) rfl

theorem powB107 : avalancheStep^[5350] 3074032031 = 1711864064 :=
  iterChain powB106 (show avalancheStep^[50] 2098006528 = 1711864064 by decide) rfl

theorem powB108 : avalancheStep^[5400] 3074032031 = 4231964672 :=
  iterChain powB107 (show avalancheStep^[50] 1711864064 = 4231964672 by decide) rfl

theorem powB109 : avalancheStep^[5450] 3074032031 = 15552000 :=
  iterChain powB108 (show avalancheStep^[50] 4231964672 = 15552000 by decide) rfl

theorem powB110 : avalancheStep^[5500] 3074032031 = 2226859520 :=
  iterChain powB109 (show avalancheStep^[50] 15552000 = 2226859520 by decide) rfl

theorem powB111 : avalancheStep^[5550] 3074032031 = 2471563776 :=
  iterChain powB110 (show avalancheStep^[50] 2226859520 = 2471563776 by decide) rfl

theorem powB112 : avalancheStep^[5600] 3074032031 = 3113202688 :=
  iterChain powB111 (show avalancheStep^[50] 2471563776 = 3113202688 by decide) rfl

theorem powB113 : avalancheStep^[5650] 3074032031 = 577921280 :=
  iterChain powB112 (show avalancheStep^[50] 3113202688 = 577921280 by decide) rfl

theorem powB114 : avalancheStep^[5700] 3074032031 = 1193155840 :=
  iterChain powB113 (show avalancheStep^[50] 577921280 = 1193155840 by decide) rfl

theorem powB115 : avalancheStep^[5750] 3074032031 = 3344285728 :=
  iterChain powB114 (show avalancheStep^[50] 1193155840 = 3344285728 by decide) rfl

theorem powB116 : avalancheStep^[5800] 3074032031 = 726887936 :=
  iterChain powB115 (show avalancheStep^[50] 3344285728 = 726887936 by decide) rfl

theorem powB117 : avalancheStep^[5850] 3074032031 = 1907412352 :=
  iterChain powB116 (show avalancheStep^[50] 726887936 = 1907412352 by decide) rfl

theorem powB118 : avalancheStep^[5900] 3074032031 = 2804896896 :=
  iterChain powB117 (show avalancheStep^[50] 1907412352 = 2804896896 by decide) rfl

theorem powB119 : avalancheStep^[5950] 3074032031 = 3351146880 :=
  iterChain powB118 (show avalancheStep^[50] 2804896896 = 3351146880 by decide) rfl

theorem powB120 : avalancheStep^[6000] 3074032031 = 525745664 :=
  iterChain powB119 (show avalancheStep^[50] 3351146880 = 525745664 by decide) rfl

theorem powB121 : avalancheStep^[6050] 3074032031 = 3675985152 :=
  iterChain powB120 (show avalancheStep^[50] 525745664 = 3675985152 by decide) rfl

theorem powB122 : avalancheStep^[6100] 3074032031 = 1252582912 :=
  iterChain powB121 (show avalancheStep^[50] 3675985152 = 1252582912 by decide) rfl

theorem powB123 : avalancheStep^[6150] 3074032031 = 1142877056 :=
  iterChain powB122 (show avalancheStep^[50] 1252582912 = 1142877056 by decide) rfl

theorem powB124 : avalancheStep^[6200] 3074032031 = 449772352 :=
  iterChain powB123 (show avalancheStep^[50] 1142877056 = 449772352 by decide) rfl

theorem powB125 : avalancheStep^[6250] 3074032031 = 361693440 :=
  iterChain powB124 (show avalancheStep^[50] 449772352 = 361693440 by decide) rfl

theorem powB126 : avalancheStep^[6300] 3074032031 = 475941888 :=
  iterChain powB125 (show avalancheStep^[50] 361693440 = 475941888 by decide) rfl

theorem powB127 : avalancheStep^[6350] 3074032031 = 2424479104 :=
  iterChain powB126 (show avalancheStep^[50] 475941888 = 2424479104 by decide) rfl

theorem powB128 : avalancheStep^[6400] 3074032031 = 1549619264 :=
  iterChain powB127 (show avalancheStep^[50] 2424479104 = 1549619264 by decide) rfl

theorem powB129 : avalancheStep^[6450] 3074032031 = 455929344 :=
  iterChain powB128 (show avalancheStep^[50] 1549619264 = 455929344 by decide) rfl

theorem powB130 : avalancheStep^[6500] 3074032031 = 1839165248 :=
  iterChain powB129 (show avalancheStep^[50] 455929344 = 1839165248 by decide) rfl

theorem powB131 : avalancheStep^[6550] 3074032031 = 4075365120 :=
  iterChain powB130 (show avalancheStep^[50] 1839165248 = 4075365120 by decide) rfl

theorem powB132 : avalancheStep^[6600] 3074032031 = 722976768 :=
  iterChain powB131 (show avalancheStep^[50] 4075365120 = 722976768 by decide) rfl

theorem powB133 : avalancheStep^[6650] 3074032031 = 4288335872 :=
  iterChain powB132 (show avalancheStep^[50] 722976768 = 4288335872 by decide) rfl

theorem powB134 : avalancheStep^[6700] 3074032031 = 2523246080 :=
  iterChain powB133 (show avalancheStep^[50] 4288335872 = 2523246080 by decide) rfl

theorem powB135 : avalancheStep^[6750] 3074032031 = 683573248 :=
  iterChain powB134 (show avalancheStep^[50] 2523246080 = 683573248 by decide) rfl

theorem powB136 : avalancheStep^[6800] 3074032031 = 4216742656 :=
  iterChain powB135 (show avalancheStep^[50] 683573248 = 4216742656 by decide) rfl

theorem powB137 : avalancheStep^[6850] 3074032031 = 2460838400 :=
  iterChain powB136 (show avalancheStep^[50] 4216742656 = 2460838400 by decide) rfl

theorem powB138 : avalancheStep^[6900] 3074032031 = 2023090240 :=
  iterChain powB137 (show avalancheStep^[50] 2460838400 = 2023090240 by decide) rfl

theorem powB139 : avalancheStep^[6950] 3074032031 = 1629852736 :=
  iterChain powB138 (show avalancheStep^[50] 2023090240 = 1629852736 by decide) rfl

theorem powB140 : avalancheStep^[7000] 3074032031 = 138568512 :=
  iterChain powB139 (show avalancheStep^[50] 1629852736 = 138568512 by decide) rfl

theorem powB141 : avalancheStep^[7050] 3074032031 = 548741696 :=
  iterChain powB140 (show avalancheStep^[50] 138568512 = 548741696 by decide) rfl

theorem powB142 : avalancheStep^[7100] 3074032031 = 784441856 :=
  iterChain powB141 (show avalancheStep^[50] 548741696 = 784441856 by decide) rfl

theorem powB143 : avalancheStep^[7150] 3074032031 = 2251607808 :=
  iterChain powB142 (show avalancheStep^[50] 784441856 = 2251607808 by decide) rfl

theorem powB144 : avalancheStep^[7200] 3074032031 = 2275787776 :=
  iterChain powB143 (show avalancheStep^[50] 2251607808 = 2275787776 by decide) rfl

theorem powB145 : avalancheStep^[7250] 3074032031 = 3025533952 :=
  iterChain powB144 (show avalancheStep^[50] 2275787776 = 3025533952 by decide) rfl

theorem powB146 : avalancheStep^[7300] 3074032031 = 480574976 :=
  iterChain powB145 (show avalancheStep^[50] 3025533952 = 480574976 by decide) rfl

theorem powB147 : avalancheStep^[7350] 3074032031 = 62908416 :=
  iterChain powB146 (show avalancheStep^[50] 480574976 = 62908416 by decide) rfl

theorem powB148 : avalancheStep^[7400] 3074032031 = 1839673088 :=
  iterChain powB147 (show avalancheStep^[50] 62908416 = 1839673088 by decide) rfl

theorem powB149 : avalancheStep^[7450] 3074032031 = 2935001600 :=
  iterChain powB148 (show avalancheStep^[50] 1839673088 = 2935001600 by decide) rfl

theorem powB150 : avalancheStep^[7500] 3074032031 = 1522736064 :=
  iterChain powB149 (show avalancheStep^[50] 2935001600 = 1522736064 by decide) rfl

theorem powB151 : avalancheStep^[7550] 3074032031 = 2246923008 :=
  iterChain powB150 (show avalancheStep^[50] 1522736064 = 2246923008 by decide) rfl

theorem powB152 : avalancheStep^[7600] 3074032031 = 2280139776 :=
  iterChain powB151 (show avalancheStep^[50] 2246923008 = 2280139776 by decide) rfl

theorem powB153 : avalancheStep^[7650] 3074032031 = 1858810624 :=
  iterChain powB152 (show avalancheStep^[50] 2280139776 = 1858810624 by decide) rfl

theorem powB154 : avalancheStep^[7700] 3074032031 = 3093618240 :=
  iterChain powB153 (show avalancheStep^[50] 1858810624 = 3093618240 by decide) rfl

theorem powB155 : avalancheStep^[7750] 3074032031 = 907377664 :=
  iterChain powB154 (show avalancheStep^[50] 3093618240 = 907377664 by decide) rfl

theorem powB156 : avalancheStep^[7800] 3074032031 = 1723037184 :=
  iterChain powB155 (show avalancheStep^[50] 907377664 = 1723037184 by decide) rfl

theorem powB157 : avalancheStep^[7850] 3074032031 = 2848265792 :=
  iterChain powB156 (show avalancheStep^[50] 1723037184 = 2848265792 by decide) rfl

theorem powB158 : avalancheStep^[7900] 3074032031 = 2209160960 :=
  iterChain powB157 (show avalancheStep^[50] 2848265792 = 2209160960 by decide) rfl

theorem powB159 : avalancheStep^[7950] 3074032031 = 1469344256 :=
  iterChain powB158 (show avalancheStep^[50] 2209160960 = 1469344256 by decide) rfl

theorem powB160 : avalancheStep^[8000] 3074032031 = 3583831808 :=
  iterChain powB159 (show avalancheStep^[50] 1469344256 = 3583831808 by decide) rfl

theorem powB161 : avalancheStep^[8050] 3074032031 = 3886577088 :=
  iterChain powB160 (show avalancheStep^[50] 3583831808 = 3886577088 by decide) rfl

theorem powB162 : avalancheStep^[8100] 3074032031 = 1414609664 :=
  iterChain powB161 (show avalancheStep^[50] 3886577088 = 1414609664 by decide) rfl

theorem powB163 : avalancheStep^[8150] 3074032031 = 482905088 :=
  iterChain powB162 (show avalancheStep^[50] 1414609664 = 482905088 by decide) rfl

theorem powB164 : avalancheStep^[8200] 3074032031 = 766373184 :=
  iterChain powB163 (show avalancheStep^[50] 482905088 = 766373184 by decide) rfl

theorem powB165 : avalancheStep^[8250] 3074032031 = 428841216 :=
  iterChain powB164 (show avalancheStep^[50] 766373184 = 428841216 by decide) rfl

theorem powB166 : avalancheStep^[8300] 3074032031 = 1319890944 :=
  iterChain powB165 (show avalancheStep^[50] 428841216 = 1319890944 by decide) rfl

theorem powB167 : avalancheStep^[8350] 3074032031 = 3735170048 :=
  iterChain powB166 (show avalancheStep^[50] 1319890944 = 3735170048 by decide) rfl

theorem powB168 : avalancheStep^[8400] 3074032031 = 3256530432 :=
  iterChain powB167 (show avalancheStep^[50] 3735170048 = 3256530432 by decide) rfl

theorem powB169 : avalancheStep^[8450] 3074032031 = 3835897344 :=
  iterChain powB168 (show avalancheStep^[50] 3256530432 = 3835897344 by decide) rfl

theorem powB170 : avalancheStep^[8500] 3074032031 = 2645238328 :=
  iterChain powB169 (show avalancheStep^[50] 3835897344 = 2645238328 by decide) rfl

theorem powB171 : avalancheStep^[8550] 3074032031 = 811234560 :=
  iterChain powB170 (show avalancheStep^[50] 2645238328 = 811234560 by decide) rfl

theorem powB172 : avalancheStep^[8600] 3074032031 = 1933230208 :=
  iterChain powB171 (show avalancheStep^[50] 811234560 = 1933230208 by decide) rfl

theorem powB173 : avalancheStep^[8650] 3074032031 = 3786888448 :=
  iterChain powB172 (show avalancheStep^[50] 1933230208 = 3786888448 by decide) rfl

theorem powB174 : avalancheStep^[8700] 3074032031 = 4056980288 :=
  iterChain powB173 (show avalancheStep^[50] 3786888448 = 4056980288 by decide) rfl

theorem powB175 : avalancheStep^[8750] 3074032031 = 631086336 :=
  iterChain powB174 (show avalancheStep^[50] 4056980288 = 631086336 by decide) rfl

theorem powB176 : avalancheStep^[8800] 3074032031 = 429166592 :=
  iterChain powB175 (show avalancheStep^[50] 631086336 = 429166592 by decide) rfl

theorem powB177 : avalancheStep^[8850] 3074032031 = 230626048 :=
  iterChain powB176 (show avalancheStep^[50] 429166592 = 230626048 by decide) rfl

theorem powB178 : avalancheStep^[8900] 3074032031 = 3302222336 :=
  iterChain powB177 (show avalancheStep^[50] 230626048 = 3302222336 by decide) rfl

theorem powB179 : avalancheStep^[8950] 3074032031 = 140830720 :=
  iterChain powB178 (show avalancheStep^[50] 3302222336 = 140830720 by decide) rfl

theorem powB180 : avalancheStep^[9000] 3074032031 = 1764333568 :=
  iterChain powB179 (show avalancheStep^[50] 140830720 = 1764333568 by decide) rfl

theorem powB181 : avalancheStep^[9050] 3074032031 = 1184229696 :=
  iterChain powB180 (show avalancheStep^[50] 1764333568 = 1184229696 by decide) rfl

theorem powB182 : avalancheStep^[9100] 3074032031 = 3063504896 :=
  iterChain powB181 (show avalancheStep^[50] 1184229696 = 3063504896 by decide) rfl

theorem powB183 : avalancheStep^[9150] 3074032031 = 3839225344 :=
  iterChain powB182 (show avalancheStep^[50] 3063504896 = 3839225344 by decide) rfl

theorem powB184 : avalancheStep^[9200] 3074032031 = 800704576 :=
  iterChain powB183 (show avalancheStep^[50] 3839225344 = 800704576 by decide) rfl

theorem powB185 : avalancheStep^[9250] 3074032031 = 2340254016 :=
  iterChain powB184 (show avalancheStep^[50] 800704576 = 2340254016 by decide) rfl

theorem powB186 : avalancheStep^[9300] 3074032031 = 2608434496 :=
  iterChain powB185 (show avalancheStep^[50] 2340254016 = 2608434496 by decide) rfl

theorem powB187 : avalancheStep^[9350] 3074032031 = 166039552 :=
  iterChain powB186 (show avalancheStep^[50] 2608434496 = 166039552 by decide) rfl

theorem powB188 : avalancheStep^[9400] 3074032031 = 516351488 :=
  iterChain powB187 (show avalancheStep^[50] 166039552 = 516351488 by decide) rfl

theorem powB189 : avalancheStep^[9450] 3074032031 = 188187392 :=
  iterChain powB188 (show avalancheStep^[50] 516351488 = 188187392 by decide) rfl

theorem powB190 : avalancheStep^[9500] 3074032031 = 3252008768 :=
  iterChain powB189 (show avalancheStep^[50] 188187392 = 3252008768 by decide) rfl

theorem powB191 : avalancheStep^[9550] 3074032031 = 2815080000 :=
  iterChain powB190 (show avalancheStep^[50] 3252008768 = 2815080000 by decide) rfl

theorem powB192 : avalancheStep^[9600] 3074032031 = 1220578304 :=
  iterChain powB191 (show avalancheStep^[50] 2815080000 = 1220578304 by decide) rfl

theorem powB193 : avalancheStep^[9650] 3074032031 = 89761536 :=
  iterChain powB192 (show avalancheStep^[50] 1220578304 = 89761536 by decide) rfl

theorem powB194 : avalancheStep^[9700] 3074032031 = 1975738112 :=
  iterChain powB193 (show avalancheStep^[50] 89761536 = 1975738112 by decide) rfl

theorem powB195 : avalancheStep^[9750] 3074032031 = 1665859072 :=
  iterChain powB194 (show avalancheStep^[50] 1975738112 = 1665859072 by decide) rfl

theorem powB196 : avalancheStep^[9800] 3074032031 = 3441083904 :=
  iterChain powB195 (show avalancheStep^[50] 1665859072 = 3441083904 by decide) rfl

theorem powB197 : avalancheStep^[9850] 3074032031 = 4171368704 :=
  iterChain powB196 (show avalancheStep^[50] 3441083904 = 4171368704 by decide) rfl

theorem powB198 : avalancheStep^[9900] 3074032031 = 3505924352 :=
  iterChain powB197 (show avalancheStep^[50] 4171368704 = 3505924352 by decide) rfl

theorem powB199 : avalancheStep^[9950] 3074032031 = 2048363264 :=
  iterChain powB198 (show avalancheStep^[50] 3505924352 = 2048363264 by decide) rfl

theorem powB200 : avalancheStep^[10000] 3074032031 = 206844928 :=
  iterChain powB199 (show avalancheStep^[50] 2048363264 = 206844928 by decide) rfl


/-- The full hash of the data string hello0. -/
theorem powHash_helloZero : powHash (charCodes ("hello" ++ Nat.repr 0)) = 3000603136 := by
  have hb : rollHash (charCodes ("hello" ++ Nat.repr 0)) = 3074032030 := by decide
  rw [powHash, hb]
  exact powA200

/-- The full hash of the data string hello1. -/
theorem powHash_helloOne : powHash (charCodes ("hello" ++ Nat.repr 1)) = 206844928 := by
  have hb : rollHash (charCodes ("hello" ++ Nat.repr 1)) = 3074032031 := by decide
  rw [powHash, hb]
  exact powB200

/-- C3: the proof-of-work round-trip fails: computeProofOfWork increments the
nonce before resolving, so for text hello with the time target reached on the
first iteration it returns nonce 1 with the hash of hello0, and verification
recomputes the hash of hello1, which differs. -/
theorem verifyProofOfWork_of_computeProofOfWork_false :
    verifyProofOfWork "hello" (computeProofOfWork "hello" 0) = false := by
  have e0 : powHashString "hello" 0 = jsNumHex (signed32 3000603136) := by
    rw [powHashString, powHash_helloZero]
  have e1 : powHashString "hello" 1 = jsNumHex (signed32 206844928) := by
    rw [powHashString, powHash_helloOne]
  unfold verifyProofOfWork computeProofOfWork
  dsimp only
  rw [show (0 + 1 : Nat) = 1 from rfl, e1, e0]
  decide

/-- C9 (amended): the hash string is the toString(16) of the signed 32-bit
accumulator: it equals the unsigned 32-bit hexadecimal encoding exactly when
the signed interpretation is non-negative, and otherwise is a minus sign
followed by the hex digits of the magnitude. -/
theorem jsNumHex_signed_encoding (p : Nat) (hp : p < 4294967296) :
    (p < 2147483648 → jsNumHex (signed32 p) = unsignedHex p) ∧
    (2147483648 ≤ p → jsNumHex (signed32 p) = "-" ++ unsignedHex (4294967296 - p)) := by
  constructor
  · intro h
    unfold jsNumHex signed32 unsignedHex
    rw [if_pos (show p < 2147483648 from h),
        if_neg (show ¬ ((p : Int) < 0) by omega)]
    simp
  · intro h
    unfold jsNumHex signed32 unsignedHex
    rw [if_neg (show ¬ (p < 2147483648) by omega),
        if_pos (show ((p : Int) - 4294967296) < 0 by omega)]
    have habs : ((p : Int) - 4294967296).natAbs = 4294967296 - p := by omega
    rw [habs]

/-- Witness: the encoding facts at the concrete accumulator 3000603136, whose
signed interpretation is negative. -/
theorem jsNumHex_signed_encoding_witness :
    ((3000603136 : Nat) < 2147483648 →
      jsNumHex (signed32 3000603136) = unsignedHex 3000603136) ∧
    (2147483648 ≤ (3000603136 : Nat) →
      jsNumHex (signed32 3000603136) = "-" ++ unsignedHex (4294967296 - 3000603136)) :=
  jsNumHex_signed_encoding 3000603136 (by decide)

/-- Counterexample to C9 as stated: the hash string computed for payload
hello and nonce 0 has a 32-bit accumulator of 3000603136 (signed value
-1294364160) and is the minus-signed encoding, not the unsigned 32-bit
hexadecimal encoding of the accumulator. -/
theorem powHashString_not_unsigned_hex :
    powHashString "hello" 0 ≠ unsignedHex (powHash (charCodes ("hello" ++ Nat.repr 0))) ∧
    powHashString "hello" 0 = "-" ++ unsignedHex 1294364160 := by
  have e0 : powHashString "hello" 0 = jsNumHex (signed32 3000603136) := by
    rw [powHashString, powHash_helloZero]
  constructor
  · rw [e0, powHash_helloZero]
    decide
  · rw [e0]
    decide

end WitnessField
